import Mathlib

/-!
Shallow embedding of the Dairyx backend's reconciliation and stock-movement
core (src/src/handlers/{truck_load,sale,reconciliation,stock_movement,delivery}.rs).

Relational rows become Lean structures, the database becomes an explicit
`DBState`, and each HTTP handler becomes a function
`DBState → request → Except AppErr (DBState × response)`.  A handler's SQL
transaction either commits (the `.ok` state) or rolls back (`.error`, the old
state stands); `commitState` makes that convention explicit.  `i32`/`i64`
quantities are modelled as `Int`, `NUMERIC`/`f64` money fields as `ℚ`, and
`NaiveDate` as `Int` day numbers.  Authentication checks (role = manager /
driver ownership) are outside the modelled core and are dropped.
-/

set_option maxRecDepth 16000

namespace Dairyx

/-- Error taxonomy of `AppError` in src/error.rs, restricted to the variants
the modelled handlers construct. -/
inductive AppErr where
  | validation (msg : String)
  | conflict (msg : String)
  | notFound (msg : String)
  deriving Repr, DecidableEq

/-- `stock_movement_type` enum (src/dtos/reconciliation.rs). -/
inductive StockMovementType where
  | delivery_in
  | truck_load_out
  | sale_out
  | truck_return_in
  | adjustment
  | expired_out
  deriving Repr, DecidableEq

/-- A row of `batches`.  The column `quantity` is the initial quantity;
`created_at` is modelled as the insertion counter. -/
structure Batch where
  id : Nat
  product_id : Nat
  batch_number : String
  quantity : Int
  remaining_quantity : Int
  expiry_date : Int
  created_at : Nat
  deriving Repr, DecidableEq

/-- A row of `stock_movements` (the fields the core reads back). -/
structure StockMovement where
  batch_id : Nat
  product_id : Nat
  movement_type : StockMovementType
  quantity : Int
  deriving Repr, DecidableEq

/-- A row of `products` (fields used by sale creation). -/
structure Product where
  id : Nat
  name : String
  current_wholesale_price : Rat
  commission_per_unit : Rat
  deriving Repr, DecidableEq

/-- A row of `trucks` (fields used by truck-load creation). -/
structure Truck where
  id : Nat
  is_active : Bool
  deriving Repr, DecidableEq

/-- A row of `truck_loads`. -/
structure TruckLoad where
  id : Nat
  truck_id : Nat
  load_date : Int
  status : String
  deriving Repr, DecidableEq

/-- A row of `truck_load_items`. -/
structure TruckLoadItem where
  id : Nat
  truck_load_id : Nat
  batch_id : Nat
  quantity_loaded : Int
  quantity_sold : Int
  quantity_returned : Int
  deriving Repr, DecidableEq

/-- A row of `sales`. -/
structure Sale where
  id : Nat
  shop_id : Nat
  truck_id : Nat
  truck_load_id : Nat
  total_amount : Rat
  amount_paid : Rat
  payment_status : String
  sale_date : Int
  deriving Repr, DecidableEq

/-- A row of `sale_items`. -/
structure SaleItem where
  id : Nat
  sale_id : Nat
  batch_id : Nat
  quantity : Int
  unit_price : Rat
  commission_earned : Rat
  deriving Repr, DecidableEq

/-- A row of `daily_reconciliations`. -/
structure DailyReconciliation where
  id : Nat
  reconciliation_date : Int
  status : String
  trucks_out : Int
  trucks_verified : Int
  total_items_loaded : Rat
  total_items_sold : Rat
  total_items_returned : Rat
  total_items_discarded : Rat
  total_sales_amount : Rat
  total_commission_earned : Rat
  total_allowance_allocated : Rat
  total_payments_collected : Rat
  pending_payments : Rat
  net_profit : Rat
  deriving Repr, DecidableEq

/-- A row of `reconciliation_items`. -/
structure ReconciliationItem where
  id : Nat
  reconciliation_id : Nat
  truck_id : Nat
  truck_load_id : Nat
  items_loaded : Rat
  items_sold : Rat
  items_returned : Rat
  items_discarded : Rat
  sales_amount : Rat
  commission_earned : Rat
  allowance_received : Rat
  payments_collected : Rat
  pending_payments : Rat
  is_verified : Bool
  has_discrepancy : Bool
  deriving Repr, DecidableEq

/-- The relational store.  `next_id` is the id/insertion-order counter shared
by all tables (ids in the source are serial columns). -/
structure DBState where
  products : List Product
  trucks : List Truck
  shops : List Nat
  batches : List Batch
  stock_movements : List StockMovement
  truck_loads : List TruckLoad
  truck_load_items : List TruckLoadItem
  sales : List Sale
  sale_items : List SaleItem
  reconciliations : List DailyReconciliation
  reconciliation_items : List ReconciliationItem
  next_id : Nat
  deriving Repr, DecidableEq

/-- The empty database. -/
def dbEmpty : DBState :=
  { products := [], trucks := [], shops := [], batches := [], stock_movements := []
    truck_loads := [], truck_load_items := [], sales := [], sale_items := []
    reconciliations := [], reconciliation_items := [], next_id := 1 }

/-- Transaction semantics: a handler's writes become visible only when the
whole transaction commits (`.ok`); on `.error` the transaction rolls back and
the previous state stands. -/
def commitState (s : DBState) (r : Except AppErr DBState) : DBState :=
  match r with
  | .ok s' => s'
  | .error _ => s

-- ==================== lookups and row updates ====================

/-- `SELECT ... FROM batches WHERE id = $1`. -/
def findBatch (s : DBState) (bid : Nat) : Option Batch :=
  s.batches.find? (fun b => b.id == bid)

/-- `remaining_quantity` of a batch, if the row exists. -/
def batchRemaining (s : DBState) (bid : Nat) : Option Int :=
  (findBatch s bid).map Batch.remaining_quantity

/-- `UPDATE batches SET remaining_quantity = remaining_quantity + $2 WHERE id = $1`
(matching zero rows is silently a no-op, as in SQL). -/
def updateBatchRemaining (s : DBState) (bid : Nat) (delta : Int) : DBState :=
  { s with
    batches := s.batches.map (fun b =>
      if b.id == bid then { b with remaining_quantity := b.remaining_quantity + delta } else b) }

/-- `SELECT ... FROM truck_loads WHERE id = $1`. -/
def findTruckLoad (s : DBState) (tlid : Nat) : Option TruckLoad :=
  s.truck_loads.find? (fun tl => tl.id == tlid)

/-- `SELECT ... FROM truck_load_items WHERE truck_load_id = $1 AND batch_id = $2`. -/
def findLoadItem (s : DBState) (tlid bid : Nat) : Option TruckLoadItem :=
  s.truck_load_items.find? (fun i => i.truck_load_id == tlid && i.batch_id == bid)

/-- `SELECT ... FROM products WHERE id = $1`. -/
def findProduct (s : DBState) (pid : Nat) : Option Product :=
  s.products.find? (fun p => p.id == pid)

/-- `SELECT ... FROM daily_reconciliations WHERE reconciliation_date = $1`. -/
def findReconciliation (s : DBState) (date : Int) : Option DailyReconciliation :=
  s.reconciliations.find? (fun r => r.reconciliation_date == date)

/-- `SELECT ... FROM reconciliation_items WHERE reconciliation_id = $1 AND truck_id = $2`. -/
def findReconItem (s : DBState) (rid tid : Nat) : Option ReconciliationItem :=
  s.reconciliation_items.find? (fun it => it.reconciliation_id == rid && it.truck_id == tid)

-- ==================== batch ledger (src/handlers/stock_movement.rs) ====================

/-- Signed magnitude of a movement, the `CASE` expression of
`get_batch_movements`: `delivery_in`, `truck_return_in` and `adjustment`
(whose stored quantity is itself signed) add, all other types subtract. -/
def signedQuantity (m : StockMovement) : Int :=
  match m.movement_type with
  | .delivery_in => m.quantity
  | .truck_return_in => m.quantity
  | .adjustment => m.quantity
  | _ => -m.quantity

/-- Signed sum of all stock movements of one batch (the final value of the
`running_balance` column of `get_batch_movements`). -/
def ledgerSum (s : DBState) (bid : Nat) : Int :=
  ((s.stock_movements.filter (fun m => m.batch_id == bid)).map signedQuantity).sum

/-- The spec's batch ledger invariant: `remaining_quantity` equals
`initial_quantity` plus the signed sum of the batch's movements. -/
def ledgerBalanced (s : DBState) (b : Batch) : Prop :=
  b.remaining_quantity = b.quantity + ledgerSum s b.id

instance (s : DBState) (b : Batch) : Decidable (ledgerBalanced s b) :=
  inferInstanceAs (Decidable (b.remaining_quantity = b.quantity + ledgerSum s b.id))

-- ==================== FIFO allocator (src/handlers/truck_load.rs) ====================

/-- `ORDER BY b.expiry_date ASC, b.created_at ASC`: lexicographic order on
`(expiry_date, created_at)`. -/
def fifoRel (a b : Batch) : Prop :=
  a.expiry_date < b.expiry_date ∨ (a.expiry_date = b.expiry_date ∧ a.created_at ≤ b.created_at)

instance : DecidableRel fifoRel := fun a b =>
  inferInstanceAs (Decidable (a.expiry_date < b.expiry_date ∨
    (a.expiry_date = b.expiry_date ∧ a.created_at ≤ b.created_at)))

instance : IsTotal Batch fifoRel where
  total a b := by
    unfold fifoRel; omega

instance : IsTrans Batch fifoRel where
  trans a b c hab hbc := by
    unfold fifoRel at *; omega

instance : IsRefl Batch fifoRel where
  refl _ := Or.inr ⟨rfl, le_refl _⟩

/-- Modelled from the spec (§4.2): the greedy oldest-first allocation the
claim describes — walk the candidate list, stop when nothing is still needed,
and take `min(still-needed, batch.remaining_quantity)` from each batch.  Used
only to compare the source's allocation loop against the spec's algorithm. -/
def specGreedyAlloc : Int → List Batch → List (Batch × Int)
  | _, [] => []
  | need, b :: bs =>
    if need = 0 then []
    else
      (b, min need b.remaining_quantity) ::
        specGreedyAlloc (need - min need b.remaining_quantity) bs

/-- Candidate batches of `load_product_fifo`: rows of the product with
`remaining_quantity > 0`, sorted ascending by `(expiry_date, created_at)`. -/
def fifoCandidates (s : DBState) (pid : Nat) : List Batch :=
  List.insertionSort fifoRel
    (s.batches.filter (fun b => b.product_id == pid && decide (0 < b.remaining_quantity)))

/-- `INSERT INTO truck_load_items (truck_load_id, batch_id, quantity_loaded)`;
`quantity_sold` and `quantity_returned` default to 0. -/
def insertLoadItem (s : DBState) (tlid bid : Nat) (q : Int) : DBState × TruckLoadItem :=
  let item : TruckLoadItem :=
    { id := s.next_id, truck_load_id := tlid, batch_id := bid
      quantity_loaded := q, quantity_sold := 0, quantity_returned := 0 }
  ({ s with truck_load_items := s.truck_load_items ++ [item], next_id := s.next_id + 1 }, item)

/-- The allocation loop of `load_product_fifo`: walk the pre-fetched candidate
list, stop once `remaining_to_load` hits 0, take
`min(remaining_to_load, batch.remaining_quantity)` from each batch, inserting a
truck-load item and deducting from the batch. -/
def fifoLoop (tlid : Nat) : DBState → Int → List Batch → DBState × List TruckLoadItem
  | s, _, [] => (s, [])
  | s, need, b :: bs =>
    if need = 0 then (s, [])
    else
      let q := min need b.remaining_quantity
      let (s1, item) := insertLoadItem s tlid b.id q
      let s2 := updateBatchRemaining s1 b.id (-q)
      let (s3, rest) := fifoLoop tlid s2 (need - q) bs
      (s3, item :: rest)

/-- `load_product_fifo` (src/handlers/truck_load.rs, lines 583-668). -/
def loadProductFifo (s : DBState) (truck_load_id product_id : Nat)
    (total_quantity_needed : Int) : Except AppErr (DBState × List TruckLoadItem) :=
  let batches := fifoCandidates s product_id
  if batches.isEmpty then
    .error (.notFound ("No available batches found for product " ++ toString product_id))
  else
    let total_available : Int := (batches.map Batch.remaining_quantity).sum
    if total_available < total_quantity_needed then
      .error (.validation ("Insufficient stock for product " ++ toString product_id ++
        ". Available: " ++ toString total_available ++
        ", Requested: " ++ toString total_quantity_needed))
    else
      .ok (fifoLoop truck_load_id s total_quantity_needed batches)

/-- `load_specific_batch` (src/handlers/truck_load.rs, lines 511-580); the
unique key on `(truck_load_id, batch_id)` turns a duplicate insert into
`Conflict`. -/
def loadSpecificBatch (s : DBState) (truck_load_id batch_id : Nat)
    (quantity_loaded : Int) : Except AppErr (DBState × List TruckLoadItem) :=
  match findBatch s batch_id with
  | none => .error (.notFound ("Batch " ++ toString batch_id ++ " not found"))
  | some batch =>
    if batch.remaining_quantity < quantity_loaded then
      .error (.validation ("Batch " ++ batch.batch_number ++ " only has " ++
        toString batch.remaining_quantity ++ " units remaining, cannot load " ++
        toString quantity_loaded))
    else if (findLoadItem s truck_load_id batch_id).isSome then
      .error (.conflict ("Batch " ++ batch.batch_number ++ " already added to this truck load"))
    else
      let (s1, item) := insertLoadItem s truck_load_id batch_id quantity_loaded
      .ok (updateBatchRemaining s1 batch_id (-quantity_loaded), [item])

/-- One line of `CreateTruckLoadRequest.items` as the handler consumes it:
exactly one of `batch_id` / `product_id` must be set. -/
structure TruckLoadItemReq where
  batch_id : Option Nat
  product_id : Option Nat
  quantity_loaded : Int
  deriving Repr, DecidableEq

/-- `CreateTruckLoadRequest`. -/
structure CreateTruckLoadReq where
  truck_id : Nat
  load_date : Int
  items : List TruckLoadItemReq
  deriving Repr, DecidableEq

/-- The item loop of `create_truck_load`. -/
def truckLoadItemsLoop (tlid : Nat) :
    DBState → List TruckLoadItemReq → Except AppErr (DBState × List TruckLoadItem)
  | s, [] => .ok (s, [])
  | s, item :: rest =>
    match item.batch_id, item.product_id with
    | none, none => .error (.validation "Each item must have either batch_id or product_id")
    | some _, some _ => .error (.validation "Each item cannot have both batch_id and product_id")
    | some bid, none =>
      match loadSpecificBatch s tlid bid item.quantity_loaded with
      | .error e => .error e
      | .ok (s1, loaded) =>
        match truckLoadItemsLoop tlid s1 rest with
        | .error e => .error e
        | .ok (s2, tail) => .ok (s2, loaded ++ tail)
    | none, some pid =>
      match loadProductFifo s tlid pid item.quantity_loaded with
      | .error e => .error e
      | .ok (s1, loaded) =>
        match truckLoadItemsLoop tlid s1 rest with
        | .error e => .error e
        | .ok (s2, tail) => .ok (s2, loaded ++ tail)

/-- `create_truck_load` (src/handlers/truck_load.rs, lines 12-149); the unique
key on `(truck_id, load_date)` turns a duplicate insert into `Conflict`. -/
def createTruckLoad (s : DBState) (req : CreateTruckLoadReq) :
    Except AppErr (DBState × List TruckLoadItem) :=
  if req.items.isEmpty then
    .error (.validation "Truck load must contain at least one item")
  else
    match s.trucks.find? (fun t => t.id == req.truck_id) with
    | none => .error (.notFound "Truck not found")
    | some truck =>
      if !truck.is_active then .error (.validation "Truck is not active")
      else if s.truck_loads.any (fun tl =>
          tl.truck_id == req.truck_id && tl.load_date == req.load_date) then
        .error (.conflict "A truck load already exists for this truck on this date")
      else
        let tl : TruckLoad :=
          { id := s.next_id, truck_id := req.truck_id
            load_date := req.load_date, status := "loaded" }
        let s1 : DBState :=
          { s with truck_loads := s.truck_loads ++ [tl], next_id := s.next_id + 1 }
        truckLoadItemsLoop tl.id s1 req.items

-- ==================== truck-load reconcile (src/handlers/truck_load.rs) ====================

/-- `TruckLoadReturnItem` of `ReconcileTruckLoadRequest`. -/
structure TruckLoadReturnItem where
  batch_id : Nat
  quantity_returned : Int
  deriving Repr, DecidableEq

/-- `UPDATE truck_load_items SET quantity_returned = $2
WHERE truck_load_id = $1 AND batch_id = $3`. -/
def setItemReturned (s : DBState) (tlid bid : Nat) (q : Int) : DBState :=
  { s with
    truck_load_items := s.truck_load_items.map (fun i =>
      if i.truck_load_id == tlid && i.batch_id == bid then { i with quantity_returned := q }
      else i) }

/-- One iteration of the `reconcile_truck_load` returns loop: replace the
item's `quantity_returned`, validate `sold + returned <= loaded` on the
updated row, then restore the returned quantity to the batch. -/
def reconcileStep (tlid : Nat) (s : DBState) (r : TruckLoadReturnItem) :
    Except AppErr DBState :=
  match findLoadItem s tlid r.batch_id with
  | none =>
    .error (.notFound ("Batch " ++ toString r.batch_id ++ " not found in this truck load"))
  | some item =>
    let s1 := setItemReturned s tlid r.batch_id r.quantity_returned
    if item.quantity_loaded < item.quantity_sold + r.quantity_returned then
      .error (.validation ("Batch " ++ toString r.batch_id ++
        ": Total sold (" ++ toString item.quantity_sold ++ ") + returned (" ++
        toString r.quantity_returned ++ ") cannot exceed loaded quantity (" ++
        toString item.quantity_loaded ++ ")"))
    else
      .ok (updateBatchRemaining s1 r.batch_id r.quantity_returned)

/-- The returns loop of `reconcile_truck_load`. -/
def reconcileLoop (tlid : Nat) : DBState → List TruckLoadReturnItem → Except AppErr DBState
  | s, [] => .ok s
  | s, r :: rs =>
    match reconcileStep tlid s r with
    | .error e => .error e
    | .ok s1 => reconcileLoop tlid s1 rs

/-- `UPDATE truck_loads SET status = 'reconciled' WHERE id = $1`. -/
def setLoadStatus (s : DBState) (tlid : Nat) (st : String) : DBState :=
  { s with
    truck_loads := s.truck_loads.map (fun tl =>
      if tl.id == tlid then { tl with status := st } else tl) }

/-- `reconcile_truck_load` (src/handlers/truck_load.rs, lines 262-343). -/
def reconcileTruckLoad (s : DBState) (id : Nat) (returns : List TruckLoadReturnItem) :
    Except AppErr DBState :=
  match findTruckLoad s id with
  | none => .error (.notFound "Truck load not found")
  | some truck_load =>
    if truck_load.status == "reconciled" then
      .error (.conflict "Truck load is already reconciled")
    else
      match reconcileLoop id s returns with
      | .error e => .error e
      | .ok s1 => .ok (setLoadStatus s1 id "reconciled")

-- ==================== sale creation (src/handlers/sale.rs) ====================

/-- `SaleItemRequest`. -/
structure SaleLine where
  product_id : Nat
  quantity : Int
  unit_price : Option Rat
  deriving Repr, DecidableEq

/-- `CreateSaleRequest`. -/
structure CreateSaleReq where
  shop_id : Nat
  truck_load_id : Nat
  sale_date : Int
  amount_paid : Option Rat
  items : List SaleLine
  deriving Repr, DecidableEq

/-- Availability of a truck-load item:
`quantity_loaded - quantity_sold - quantity_returned`. -/
def saleAvail (i : TruckLoadItem) : Int :=
  i.quantity_loaded - i.quantity_sold - i.quantity_returned

/-- Order of the batch query in `create_sale`:
`ORDER BY b.expiry_date ASC, b.created_at ASC` on the joined batch. -/
def salePairRel (p q : TruckLoadItem × Batch) : Prop :=
  fifoRel p.2 q.2

instance : DecidableRel salePairRel := fun p q =>
  inferInstanceAs (Decidable (fifoRel p.2 q.2))

instance : IsTotal (TruckLoadItem × Batch) salePairRel where
  total a b := IsTotal.total (r := fifoRel) a.2 b.2

instance : IsTrans (TruckLoadItem × Batch) salePairRel where
  trans a b c hab hbc := IsTrans.trans (r := fifoRel) a.2 b.2 c.2 hab hbc

instance : IsRefl (TruckLoadItem × Batch) salePairRel where
  refl _ := Or.inr ⟨rfl, le_refl _⟩

/-- The sale request that cannot be served by a single batch: 8 units of
product 1 against a load holding 5 + 5. -/
def saleReq8 : CreateSaleReq :=
  { shop_id := 9, truck_load_id := 3, sale_date := 7, amount_paid := some 0
    items := [{ product_id := 1, quantity := 8, unit_price := none }] }

/-- The truck-load items of one load joined with their batches, restricted to
one product and sorted by the batch's `(expiry_date, created_at)`. -/
def saleCandidates (s : DBState) (tlid pid : Nat) : List (TruckLoadItem × Batch) :=
  List.insertionSort salePairRel
    (s.truck_load_items.filterMap (fun i =>
      if i.truck_load_id == tlid then
        match findBatch s i.batch_id with
        | some b => if b.product_id == pid then some (i, b) else none
        | none => none
      else none))

/-- The batch query of `create_sale` (lines 78-103): the first row, in
`(expiry_date, created_at)` order, whose availability covers the whole
requested quantity (`WHERE ... >= $3 ... LIMIT 1`). -/
def findSaleBatch (s : DBState) (tlid pid : Nat) (qty : Int) :
    Option (TruckLoadItem × Batch) :=
  (saleCandidates s tlid pid).find? (fun p => decide (qty ≤ saleAvail p.1))

/-- The per-line data `create_sale` accumulates before inserting rows. -/
structure PendingSaleItem where
  batch_id : Nat
  quantity : Int
  unit_price : Rat
  commission_earned : Rat
  line_total : Rat
  deriving Repr, DecidableEq

/-- One iteration of the items loop of `create_sale`: validate the quantity,
resolve the product and unit price, pick the single fulfilling batch. -/
def processSaleLine (s : DBState) (tlid : Nat) (line : SaleLine) :
    Except AppErr PendingSaleItem :=
  if line.quantity ≤ 0 then .error (.validation "Quantity must be greater than 0")
  else
    match findProduct s line.product_id with
    | none => .error (.notFound ("Product " ++ toString line.product_id ++ " not found"))
    | some product =>
      let unit_price := line.unit_price.getD product.current_wholesale_price
      if unit_price < 0 then .error (.validation "Unit price cannot be negative")
      else
        match findSaleBatch s tlid line.product_id line.quantity with
        | none =>
          .error (.validation ("Insufficient quantity for product '" ++ product.name ++
            "' in truck load. Need " ++ toString line.quantity ++
            ", but not enough available."))
        | some (_, batch) =>
          .ok { batch_id := batch.id, quantity := line.quantity, unit_price := unit_price
                commission_earned := (line.quantity : Rat) * product.commission_per_unit
                line_total := (line.quantity : Rat) * unit_price }

/-- The items loop of `create_sale`; every line is resolved against the same
snapshot `s` (nothing is written until all lines are processed). -/
def saleLinesLoop (s : DBState) (tlid : Nat) :
    List SaleLine → Except AppErr (List PendingSaleItem)
  | [] => .ok []
  | line :: rest =>
    match processSaleLine s tlid line with
    | .error e => .error e
    | .ok item =>
      match saleLinesLoop s tlid rest with
      | .error e => .error e
      | .ok tail => .ok (item :: tail)

/-- Insert the `sale_items` rows for a freshly created sale. -/
def insertSaleItems (sid : Nat) : DBState → List PendingSaleItem → DBState × List SaleItem
  | s, [] => (s, [])
  | s, p :: ps =>
    let row : SaleItem :=
      { id := s.next_id, sale_id := sid, batch_id := p.batch_id, quantity := p.quantity
        unit_price := p.unit_price, commission_earned := p.commission_earned }
    let s1 : DBState :=
      { s with sale_items := s.sale_items ++ [row], next_id := s.next_id + 1 }
    let (s2, tail) := insertSaleItems sid s1 ps
    (s2, row :: tail)

/-- `create_sale` (src/handlers/sale.rs, lines 12-219). -/
def createSale (s : DBState) (req : CreateSaleReq) :
    Except AppErr (DBState × Sale × List SaleItem) :=
  if req.items.isEmpty then .error (.validation "Sale must contain at least one item")
  else
    match findTruckLoad s req.truck_load_id with
    | none => .error (.notFound "Truck load not found")
    | some truck_load =>
      if !s.shops.contains req.shop_id then .error (.notFound "Shop not found")
      else
        match saleLinesLoop s req.truck_load_id req.items with
        | .error e => .error e
        | .ok pending =>
          let total_amount : Rat := (pending.map PendingSaleItem.line_total).sum
          let amount_paid : Rat := req.amount_paid.getD 0
          if amount_paid < 0 then .error (.validation "Amount paid cannot be negative")
          else if total_amount < amount_paid then
            .error (.validation "Amount paid cannot exceed total amount")
          else
            let payment_status := if total_amount ≤ amount_paid then "paid" else "pending"
            let sale : Sale :=
              { id := s.next_id, shop_id := req.shop_id, truck_id := truck_load.truck_id
                truck_load_id := req.truck_load_id, total_amount := total_amount
                amount_paid := amount_paid, payment_status := payment_status
                sale_date := req.sale_date }
            let s1 : DBState :=
              { s with sales := s.sales ++ [sale], next_id := s.next_id + 1 }
            let (s2, rows) := insertSaleItems sale.id s1 pending
            .ok (s2, sale, rows)

-- ==================== reconciliation engine (src/handlers/reconciliation.rs) ====================

/-- `TruckReturnItem` / `DiscardedItem` (the verified-quantity part). -/
structure QtyLine where
  product_id : Nat
  quantity : Int
  deriving Repr, DecidableEq

/-- `VerifyTruckReturnRequest`. -/
structure VerifyReq where
  items_returned : List QtyLine
  items_discarded : List QtyLine
  deriving Repr, DecidableEq

/-- `Σ quantity` over submitted verification lines, as the handler's
`iter().map(|i| i.quantity as f64).sum()`. -/
def qtySum (ls : List QtyLine) : Rat :=
  (ls.map (fun l => (l.quantity : Rat))).sum

/-- The `UPDATE reconciliation_items SET ... WHERE id = $6` of
`verify_truck_return`. -/
def verifySetItem (iid : Nat) (total_returned total_discarded : Rat) (has_discrepancy : Bool)
    (it : ReconciliationItem) : ReconciliationItem :=
  if it.id == iid then
    { it with
      items_returned := total_returned, items_discarded := total_discarded
      is_verified := true, has_discrepancy := has_discrepancy }
  else it

/-- The `UPDATE daily_reconciliations SET trucks_verified = ... WHERE id = $1`
of `verify_truck_return`. -/
def setTrucksVerified (rid : Nat) (n : Int) (r : DailyReconciliation) : DailyReconciliation :=
  if r.id == rid then { r with trucks_verified := n } else r

/-- The success branch of `verify_truck_return`: store the verified
quantities and the discrepancy flag on the item, mark it verified, and
recompute `trucks_verified` as the count of verified items. -/
def verifyApply (s : DBState) (req : VerifyReq) (recon : DailyReconciliation)
    (item : ReconciliationItem) : DBState :=
  let total_returned := qtySum req.items_returned
  let total_discarded := qtySum req.items_discarded
  let expected_return := item.items_loaded - item.items_sold
  let actual_return := total_returned + total_discarded
  let has_discrepancy := decide (abs (expected_return - actual_return) > 1 / 100)
  let items' := s.reconciliation_items.map
    (verifySetItem item.id total_returned total_discarded has_discrepancy)
  let verified_count : Int :=
    ((items'.filter (fun it => it.reconciliation_id == recon.id && it.is_verified)).length : Int)
  { s with
    reconciliation_items := items'
    reconciliations := s.reconciliations.map (setTrucksVerified recon.id verified_count) }

/-- `verify_truck_return` (src/handlers/reconciliation.rs, lines 187-267). -/
def verifyTruckReturn (s : DBState) (date : Int) (truck_id : Nat) (req : VerifyReq) :
    Except AppErr DBState :=
  match findReconciliation s date with
  | none => .error (.notFound "Reconciliation not found for this date")
  | some recon =>
    if recon.status ≠ "in_progress" then
      .error (.conflict "Reconciliation is not in progress")
    else
      match findReconItem s recon.id truck_id with
      | none => .error (.notFound "Truck not found in this reconciliation")
      | some item => .ok (verifyApply s req recon item)

/-- The stock-return posting of `finalize_reconciliation` for one remaining
truck-load item: restore `quantity_loaded - quantity_sold` to the batch and
log a `truck_return_in` movement. -/
def finalizeReturnItem (s : DBState) (p : TruckLoadItem × Batch) : DBState :=
  let return_qty := p.1.quantity_loaded - p.1.quantity_sold
  let s1 := updateBatchRemaining s p.1.batch_id return_qty
  { s1 with
    stock_movements := s1.stock_movements ++
      [{ batch_id := p.1.batch_id, product_id := p.2.product_id
         movement_type := .truck_return_in, quantity := return_qty }] }

/-- The rows of the stock-return query in `finalize_reconciliation`:
truck-load items of the load joined with their batches, restricted to
`quantity_loaded - quantity_sold > 0`. -/
def remainingLoadItems (s : DBState) (tlid : Nat) : List (TruckLoadItem × Batch) :=
  s.truck_load_items.filterMap (fun i =>
    if i.truck_load_id == tlid && decide (0 < i.quantity_loaded - i.quantity_sold) then
      match findBatch s i.batch_id with
      | some b => some (i, b)
      | none => none
    else none)

/-- The stock-return pass of `finalize_reconciliation` for one reconciliation
item: if any quantity was verified as returned, post `truck_return_in`
movements for every not-fully-sold item of that truck's load. -/
def finalizeReturnsForItem (s : DBState) (item : ReconciliationItem) : DBState :=
  if 0 < item.items_returned then
    (remainingLoadItems s item.truck_load_id).foldl finalizeReturnItem s
  else s

/-- The `UPDATE daily_reconciliations SET status = 'finalized', ... WHERE id = $12`
of `finalize_reconciliation`: the sums over `items` are the SQL `SELECT SUM(...)`
totals, and `net_profit = total_commission - total_allowance`. -/
def finalizeSetTotals (items : List ReconciliationItem) (rid : Nat)
    (r : DailyReconciliation) : DailyReconciliation :=
  if r.id == rid then
    { r with
      status := "finalized"
      total_items_loaded := (items.map ReconciliationItem.items_loaded).sum
      total_items_sold := (items.map ReconciliationItem.items_sold).sum
      total_items_returned := (items.map ReconciliationItem.items_returned).sum
      total_items_discarded := (items.map ReconciliationItem.items_discarded).sum
      total_sales_amount := (items.map ReconciliationItem.sales_amount).sum
      total_commission_earned := (items.map ReconciliationItem.commission_earned).sum
      total_allowance_allocated := (items.map ReconciliationItem.allowance_received).sum
      total_payments_collected := (items.map ReconciliationItem.payments_collected).sum
      pending_payments := (items.map ReconciliationItem.pending_payments).sum
      net_profit :=
        (items.map ReconciliationItem.commission_earned).sum -
          (items.map ReconciliationItem.allowance_received).sum }
  else r

/-- The items of the reconciliation the stock-return pass works over. -/
def finalizeItems (s : DBState) (rid : Nat) : List ReconciliationItem :=
  s.reconciliation_items.filter (fun ri => ri.reconciliation_id == rid)

/-- The success branch of `finalize_reconciliation`: post the stock returns
for every reconciliation item, then write totals and the `finalized` status
into the reconciliation row. -/
def finalizeApply (s : DBState) (recon : DailyReconciliation) : DBState :=
  let items := s.reconciliation_items.filter (fun ri => ri.reconciliation_id == recon.id)
  let s1 := items.foldl finalizeReturnsForItem s
  { s1 with reconciliations := s1.reconciliations.map (finalizeSetTotals items recon.id) }

/-- `finalize_reconciliation` (src/handlers/reconciliation.rs, lines 271-420). -/
def finalizeReconciliation (s : DBState) (date : Int) : Except AppErr DBState :=
  match findReconciliation s date with
  | none => .error (.notFound "Reconciliation not found")
  | some recon =>
    if recon.status == "finalized" then
      .error (.conflict "Reconciliation already finalized")
    else if recon.trucks_verified < recon.trucks_out then
      .error (.validation ("Not all trucks verified. " ++ toString recon.trucks_verified ++
        "/" ++ toString recon.trucks_out ++ " trucks verified"))
    else
      .ok (finalizeApply s recon)

-- ==================== delivery intake (src/handlers/delivery.rs) ====================

/-- One batch line of a delivery item. -/
structure DeliveryBatchReq where
  batch_number : String
  quantity : Int
  expiry_date : Int
  deriving Repr, DecidableEq

/-- One product line of `CreateDeliveryRequest`. -/
structure DeliveryItemReq where
  product_id : Nat
  unit_price : Rat
  batches : List DeliveryBatchReq
  deriving Repr, DecidableEq

/-- Process one batch line of `create_delivery`: top up the batch with the
same `(product_id, batch_number)` if it exists (its expiry must match),
otherwise insert a new batch row. -/
def deliverBatch (pid : Nat) (s : DBState) (b : DeliveryBatchReq) : Except AppErr DBState :=
  match s.batches.find? (fun x => x.product_id == pid && x.batch_number == b.batch_number) with
  | some ex =>
    if ex.expiry_date ≠ b.expiry_date then
      .error (.validation ("Batch " ++ b.batch_number ++
        " already exists with different expiry date"))
    else
      .ok { s with
        batches := s.batches.map (fun x =>
          if x.id == ex.id then
            { x with quantity := x.quantity + b.quantity
                     remaining_quantity := x.remaining_quantity + b.quantity }
          else x) }
  | none =>
    let row : Batch :=
      { id := s.next_id, product_id := pid, batch_number := b.batch_number
        quantity := b.quantity, remaining_quantity := b.quantity
        expiry_date := b.expiry_date, created_at := s.next_id }
    .ok { s with batches := s.batches ++ [row], next_id := s.next_id + 1 }

/-- The batch loop of one delivery item. -/
def deliverBatches (pid : Nat) : DBState → List DeliveryBatchReq → Except AppErr DBState
  | s, [] => .ok s
  | s, b :: bs =>
    match deliverBatch pid s b with
    | .error e => .error e
    | .ok s1 => deliverBatches pid s1 bs

/-- The item loop of `create_delivery`. -/
def deliverItems : DBState → List DeliveryItemReq → Except AppErr DBState
  | s, [] => .ok s
  | s, item :: rest =>
    match deliverBatches item.product_id s item.batches with
    | .error e => .error e
    | .ok s1 => deliverItems s1 rest

/-- `create_delivery` (src/handlers/delivery.rs, lines 13-132): all request
validation runs before any row is written; batches are created or topped up,
and no `delivery_in` stock movement is inserted anywhere in the handler. -/
def createDelivery (s : DBState) (items : List DeliveryItemReq) : Except AppErr DBState :=
  if items.isEmpty then .error (.validation "Delivery must have at least one item")
  else if items.any (fun it => decide (it.unit_price < 0)) then
    .error (.validation "unit_price must be greater than or equal to 0")
  else if items.any (fun it => it.batches.isEmpty) then
    .error (.validation "Each item must have at least one batch")
  else if items.any (fun it => it.batches.any (fun b => decide (b.quantity ≤ 0))) then
    .error (.validation "Batch quantity must be > 0")
  else
    deliverItems s items

/-- Transaction semantics for handlers that also return a response payload. -/
def commitPair {α : Type} (s : DBState) (r : Except AppErr (DBState × α)) : DBState :=
  match r with
  | .ok p => p.1
  | .error _ => s

-- ==================== concrete scenario states ====================

/-- A product used by the concrete scenarios. -/
def pMilk : Product :=
  { id := 1, name := "Milk", current_wholesale_price := 100, commission_per_unit := 5 }

/-- Base state of the ledger scenario: one product, one active truck, one
shop, and an empty movement ledger. -/
def s0 : DBState :=
  { dbEmpty with products := [pMilk], trucks := [{ id := 1, is_active := true }], shops := [9] }

/-- Delivery of 10 units of product 1 in batch "B1" (expiry day 100). -/
def c2AfterDelivery : Except AppErr DBState :=
  createDelivery s0
    [{ product_id := 1, unit_price := 50
       batches := [{ batch_number := "B1", quantity := 10, expiry_date := 100 }] }]

/-- The ledger scenario: the delivery above followed by a truck load that
FIFO-allocates 4 units of product 1. -/
def c2Run : Except AppErr DBState :=
  match c2AfterDelivery with
  | .error e => .error e
  | .ok s1 =>
    (createTruckLoad s1
      { truck_id := 1, load_date := 7
        items := [{ batch_id := none, product_id := some 1, quantity_loaded := 4 }] }).map
      Prod.fst

/-- State for the allocation scenarios: product 1 in two batches
(5 units expiring day 10, 10 units expiring day 20). -/
def c1State : DBState :=
  { dbEmpty with
    products := [pMilk]
    batches :=
      [{ id := 2, product_id := 1, batch_number := "B2", quantity := 10
         remaining_quantity := 10, expiry_date := 20, created_at := 2 },
       { id := 1, product_id := 1, batch_number := "B1", quantity := 5
         remaining_quantity := 5, expiry_date := 10, created_at := 1 }]
    next_id := 3 }

/-- The allocation of the worked FIFO example: 8 units of product 1 against
`c1State` for truck load 1. -/
def c1Result : DBState × List TruckLoadItem :=
  match loadProductFifo c1State 1 1 8 with
  | .ok p => p
  | .error _ => (dbEmpty, [])

/-- State whose only batch of product 2 is empty: product 2 has no candidate
batches at all. -/
def c3State : DBState :=
  { dbEmpty with
    products := [pMilk, { pMilk with id := 2, name := "Curd" }]
    batches :=
      [{ id := 1, product_id := 2, batch_number := "C1", quantity := 5
         remaining_quantity := 0, expiry_date := 10, created_at := 1 }]
    next_id := 2 }

/-- A loaded truck with 5 + 5 units of product 1 on board (batch 1 exhausted
in the warehouse, batch 2 still holding 5). -/
def saleBaseState : DBState :=
  { dbEmpty with
    products := [pMilk]
    shops := [9]
    batches :=
      [{ id := 1, product_id := 1, batch_number := "B1", quantity := 5
         remaining_quantity := 0, expiry_date := 10, created_at := 1 },
       { id := 2, product_id := 1, batch_number := "B2", quantity := 10
         remaining_quantity := 5, expiry_date := 20, created_at := 2 }]
    truck_loads := [{ id := 3, truck_id := 1, load_date := 7, status := "loaded" }]
    truck_load_items :=
      [{ id := 4, truck_load_id := 3, batch_id := 1, quantity_loaded := 5
         quantity_sold := 0, quantity_returned := 0 },
       { id := 5, truck_load_id := 3, batch_id := 2, quantity_loaded := 5
         quantity_sold := 0, quantity_returned := 0 }]
    next_id := 6 }

/-- A sale of 3 units of product 1 from truck load 3. -/
def saleReq3 : CreateSaleReq :=
  { shop_id := 9, truck_load_id := 3, sale_date := 7, amount_paid := some 100
    items := [{ product_id := 1, quantity := 3, unit_price := none }] }

/-- The reconciliation row of the worked reconciliation example (date 7). -/
def c7Recon : DailyReconciliation :=
  { id := 1, reconciliation_date := 7, status := "in_progress"
    trucks_out := 2, trucks_verified := 2
    total_items_loaded := 0, total_items_sold := 0, total_items_returned := 0
    total_items_discarded := 0, total_sales_amount := 0
    total_commission_earned := 0, total_allowance_allocated := 0
    total_payments_collected := 0, pending_payments := 0, net_profit := 0 }

/-- Truck 1's reconciliation item: loaded 100, sold 60, commission 500,
allowance 200. -/
def c7Item1 : ReconciliationItem :=
  { id := 2, reconciliation_id := 1, truck_id := 1, truck_load_id := 11
    items_loaded := 100, items_sold := 60, items_returned := 0, items_discarded := 0
    sales_amount := 6000, commission_earned := 500, allowance_received := 200
    payments_collected := 6000, pending_payments := 0
    is_verified := true, has_discrepancy := false }

/-- Truck 2's reconciliation item: commission 300, allowance 150. -/
def c7Item2 : ReconciliationItem :=
  { id := 3, reconciliation_id := 1, truck_id := 2, truck_load_id := 12
    items_loaded := 80, items_sold := 80, items_returned := 0, items_discarded := 0
    sales_amount := 4000, commission_earned := 300, allowance_received := 150
    payments_collected := 4000, pending_payments := 0
    is_verified := true, has_discrepancy := false }

/-- An in-progress reconciliation (date 7) with both of its trucks verified:
commissions 500 and 300, allowances 200 and 150, nothing marked returned. -/
def c7State : DBState :=
  { dbEmpty with
    reconciliations := [c7Recon]
    reconciliation_items := [c7Item1, c7Item2]
    next_id := 4 }

/-- The state after finalizing `c7State`. -/
def c7Final : DBState :=
  match finalizeReconciliation c7State 7 with
  | .ok s => s
  | .error _ => dbEmpty

/-- A loaded truck load (id 1) carrying 5 units of batch 1, whose warehouse
remainder is 0; the movement ledger is empty. -/
def c9State : DBState :=
  { dbEmpty with
    batches :=
      [{ id := 1, product_id := 1, batch_number := "B1", quantity := 5
         remaining_quantity := 0, expiry_date := 10, created_at := 1 }]
    truck_loads := [{ id := 1, truck_id := 1, load_date := 7, status := "loaded" }]
    truck_load_items :=
      [{ id := 2, truck_load_id := 1, batch_id := 1, quantity_loaded := 5
         quantity_sold := 0, quantity_returned := 0 }]
    next_id := 3 }

/-- The single return entry of the reconcile scenario: all 5 units of batch 1
come back. -/
def c9Rets : List TruckLoadReturnItem := [{ batch_id := 1, quantity_returned := 5 }]

/-- The state after reconciling truck load 1 of `c9State`. -/
def c9After : DBState :=
  match reconcileTruckLoad c9State 1 c9Rets with
  | .ok s => s
  | .error _ => dbEmpty

-- ==================== generic list lemmas ====================

theorem find?_map_of_pred {α : Type} (p : α → Bool) (g : α → α) (hg : ∀ x, p (g x) = p x) :
    ∀ (l : List α) (r : α), l.find? p = some r → (l.map g).find? p = some (g r) := by
  intro l
  induction l with
  | nil => intro r h; simp [List.find?] at h
  | cons x xs ih =>
    intro r h
    by_cases hx : p x = true
    · rw [List.find?_cons_of_pos _ hx] at h
      cases h
      simpa using List.find?_cons_of_pos (xs.map g) ((hg x).trans hx)
    · rw [List.find?_cons_of_neg _ (by simpa using hx)] at h
      have hngx : ¬ p (g x) = true := by rw [hg x]; exact hx
      rw [List.map_cons, List.find?_cons_of_neg _ (by simpa using hngx)]
      exact ih r h

theorem find?_map_invariant {α : Type} (p : α → Bool) (g : α → α)
    (hg : ∀ x, p (g x) = p x) (hfix : ∀ x, p x = true → g x = x) :
    ∀ (l : List α), (l.map g).find? p = l.find? p := by
  intro l
  induction l with
  | nil => simp
  | cons x xs ih =>
    by_cases hx : p x = true
    · rw [List.map_cons, List.find?_cons_of_pos _ ((hg x).trans hx),
        List.find?_cons_of_pos _ hx, hfix x hx]
    · have hngx : ¬ p (g x) = true := by rw [hg x]; exact hx
      rw [List.map_cons, List.find?_cons_of_neg _ (by simpa using hngx),
        List.find?_cons_of_neg _ (by simpa using hx), ih]

theorem find?_sorted_minimal {α : Type} (rel : α → α → Prop) [IsRefl α rel] (p : α → Bool) :
    ∀ (l : List α) (a : α), l.Sorted rel → l.find? p = some a →
      ∀ b ∈ l, p b = true → rel a b := by
  intro l
  induction l with
  | nil => intro a _ h; simp [List.find?] at h
  | cons x xs ih =>
    intro a hs h b hb hpb
    rcases List.sorted_cons.mp hs with ⟨hx, hxs⟩
    by_cases hpx : p x = true
    · rw [List.find?_cons_of_pos _ hpx] at h
      cases h
      rcases List.mem_cons.mp hb with hbx | hbxs
      · exact hbx ▸ refl_of rel b
      · exact hx b hbxs
    · rw [List.find?_cons_of_neg _ (by simpa using hpx)] at h
      rcases List.mem_cons.mp hb with hbx | hbxs
      · exact absurd (hbx ▸ hpb) hpx
      · exact ih a hxs h b hbxs hpb

theorem find?_mem_of_some {α : Type} (p : α → Bool) :
    ∀ (l : List α) (a : α), l.find? p = some a → a ∈ l ∧ p a = true := by
  intro l a h
  exact ⟨List.mem_of_find?_eq_some h, List.find?_some h⟩

theorem foldl_preserves {α β : Type} (f : α → β → α) (proj : α → γ)
    (h : ∀ st x, proj (f st x) = proj st) :
    ∀ (l : List β) (st : α), proj (l.foldl f st) = proj st := by
  intro l
  induction l with
  | nil => intro st; rfl
  | cons x xs ih => intro st; rw [List.foldl_cons, ih, h]

theorem c7Final_eq : finalizeReconciliation c7State 7 = .ok c7Final := by
  with_unfolding_all rfl

theorem c9After_eq : reconcileTruckLoad c9State 1 c9Rets = .ok c9After := rfl

-- ==================== C1 ====================

theorem specGreedyAlloc_zero (bs : List Batch) : specGreedyAlloc 0 bs = [] := by
  cases bs <;> simp [specGreedyAlloc]

/-- The source loop `fifoLoop` produces exactly the `(batch, taken)` pairs of
the spec's greedy walk. -/
theorem fifoLoop_alloc_pairs (tlid : Nat) :
    ∀ (bs : List Batch) (s : DBState) (need : Int),
      (fifoLoop tlid s need bs).2.map (fun i => (i.batch_id, i.quantity_loaded)) =
        (specGreedyAlloc need bs).map (fun q => (q.1.id, q.2)) := by
  intro bs
  induction bs with
  | nil => intro s need; rfl
  | cons b rest ih =>
    intro s need
    by_cases h : need = 0
    · simp [fifoLoop, specGreedyAlloc, h]
    · simp [fifoLoop, specGreedyAlloc, h, insertLoadItem, ih]

/-- Greedy never takes from a later batch before an earlier one is exhausted:
whenever some later allocation is positive, every earlier allocation took the
batch's whole remaining quantity. -/
theorem specGreedyAlloc_exhausts_earlier :
    ∀ (bs : List Batch) (need : Int) (l1 l2 : List (Batch × Int)) (pj : Batch × Int),
      specGreedyAlloc need bs = l1 ++ pj :: l2 → 0 < pj.2 →
      ∀ pi ∈ l1, pi.2 = pi.1.remaining_quantity := by
  intro bs
  induction bs with
  | nil =>
    intro need l1 l2 pj heq
    simp [specGreedyAlloc] at heq
  | cons b rest ih =>
    intro need l1 l2 pj heq hpos pi hmem
    by_cases h0 : need = 0
    · rw [h0, specGreedyAlloc_zero] at heq
      exact absurd heq (by simp)
    · rw [show specGreedyAlloc need (b :: rest) =
          (b, min need b.remaining_quantity) ::
            specGreedyAlloc (need - min need b.remaining_quantity) rest from by
          simp [specGreedyAlloc, h0]] at heq
      cases l1 with
      | nil => simp at hmem
      | cons p0 l1t =>
        rw [List.cons_append, List.cons.injEq] at heq
        rcases heq with ⟨hp0, htail⟩
        rcases List.mem_cons.mp hmem with hpi | hpi
        · subst hpi; subst hp0
          by_cases hbr : min need b.remaining_quantity = b.remaining_quantity
          · exact hbr
          · exfalso
            have hneed : min need b.remaining_quantity = need := by
              rcases min_choice need b.remaining_quantity with hc | hc <;> omega
            rw [hneed, sub_self, specGreedyAlloc_zero] at htail
            exact absurd htail.symm (by simp)
        · exact ih (need - min need b.remaining_quantity) l1t l2 pj htail hpos pi hpi

/-- A successful `load_product_fifo` ran its loop over the sorted candidates. -/
theorem loadProductFifo_ok_shape (s : DBState) (tlid pid : Nat) (need : Int)
    (p : DBState × List TruckLoadItem) (h : loadProductFifo s tlid pid need = .ok p) :
    p = fifoLoop tlid s need (fifoCandidates s pid) := by
  unfold loadProductFifo at h
  by_cases h1 : (fifoCandidates s pid).isEmpty
  · rw [if_pos h1] at h; cases h
  · rw [if_neg h1] at h
    by_cases h2 : ((fifoCandidates s pid).map Batch.remaining_quantity).sum < need
    · rw [if_pos h2] at h; cases h
    · rw [if_neg h2] at h; cases h; rfl

/-- **C1.** FIFO truck-load allocation: a successful `load_product_fifo` works
on the candidate batches of the product (those with positive remaining
quantity) sorted ascending by `(expiry_date, created_at)`; its allocation is
exactly the spec's greedy walk taking `min(still-needed, remaining)` from each
batch in order; the greedy walk never takes from a later batch before every
earlier batch is exhausted; and on the worked example — B1(expiry 10,
remaining 5), B2(expiry 20, remaining 10) — allocating 8 yields
`[(B1,5),(B2,3)]`. -/
theorem fifo_allocation_correct :
    (∀ (s : DBState) (tlid pid : Nat) (need : Int) (p : DBState × List TruckLoadItem),
      loadProductFifo s tlid pid need = .ok p →
        (fifoCandidates s pid).Sorted fifoRel ∧
        p.2.map (fun i => (i.batch_id, i.quantity_loaded)) =
          (specGreedyAlloc need (fifoCandidates s pid)).map (fun q => (q.1.id, q.2)) ∧
        (∀ (l1 l2 : List (Batch × Int)) (pj : Batch × Int),
          specGreedyAlloc need (fifoCandidates s pid) = l1 ++ pj :: l2 → 0 < pj.2 →
          ∀ pi ∈ l1, pi.2 = pi.1.remaining_quantity)) ∧
    ((loadProductFifo c1State 1 1 8).toOption.map fun p =>
        p.2.map fun i => (i.batch_id, i.quantity_loaded)) = some [(1, 5), (2, 3)] := by
  constructor
  · intro s tlid pid need p h
    refine ⟨List.sorted_insertionSort fifoRel _, ?_, ?_⟩
    · rw [loadProductFifo_ok_shape s tlid pid need p h]
      exact fifoLoop_alloc_pairs tlid (fifoCandidates s pid) s need
    · intro l1 l2 pj heq hpos pi hmem
      exact specGreedyAlloc_exhausts_earlier (fifoCandidates s pid) need l1 l2 pj heq hpos pi hmem
  · decide

/-- Witness for C1: the general theorem applied to the worked example. -/
theorem fifo_allocation_correct_witness :
    (loadProductFifo c1State 1 1 8 = .ok c1Result) ∧
    ((fifoCandidates c1State 1).Sorted fifoRel ∧
      c1Result.2.map (fun i => (i.batch_id, i.quantity_loaded)) =
        (specGreedyAlloc 8 (fifoCandidates c1State 1)).map (fun q => (q.1.id, q.2)) ∧
      (∀ (l1 l2 : List (Batch × Int)) (pj : Batch × Int),
        specGreedyAlloc 8 (fifoCandidates c1State 1) = l1 ++ pj :: l2 → 0 < pj.2 →
        ∀ pi ∈ l1, pi.2 = pi.1.remaining_quantity)) :=
  ⟨rfl, fifo_allocation_correct.1 c1State 1 1 8 c1Result rfl⟩

-- ==================== C2 ====================

/-- **C2.** The batch ledger equation fails in a reachable state: after a
delivery of 10 units and a FIFO truck load of 4, the batch holds
`remaining_quantity = 6` while `initial_quantity + Σ(signed movements) = 10`,
because neither the delivery handler nor the truck-load handlers insert any
stock movement.  The claimed invariant
`remaining_quantity = initial_quantity + Σ(signed movement quantities)` is
violated. -/
theorem batch_ledger_equation_violated :
    (c2Run.toOption.map fun s =>
        ((findBatch s 1).map fun b => (b.quantity, b.remaining_quantity)))
      = some (some (10, 6)) ∧
    (c2Run.toOption.map fun s => s.stock_movements) = some [] ∧
    (c2Run.toOption.map fun s => ledgerSum s 1) = some 0 ∧
    (c2Run.toOption.map fun s =>
        decide (∃ b ∈ s.batches, b.quantity = 10 ∧ b.remaining_quantity = 6 ∧
          ¬ ledgerBalanced s b))
      = some true := by
  refine ⟨?_, ?_, ?_, ?_⟩ <;> with_unfolding_all decide

-- ==================== C3 ====================

/-- **C3 counterexample.** A FIFO request whose quantity (5) exceeds the sum
of remaining quantities over all candidate batches (0: product 2's only batch
is empty) does not fail with the insufficient-stock `Validation` error: when
no candidate batch exists the handler fails with `NotFound` instead. -/
theorem insufficient_stock_empty_counterexample :
    ((fifoCandidates c3State 2).map Batch.remaining_quantity).sum = 0 ∧ (0 : Int) < 5 ∧
    loadProductFifo c3State 1 2 5 =
      .error (.notFound "No available batches found for product 2") ∧
    (∀ msg, loadProductFifo c3State 1 2 5 ≠ .error (.validation msg)) := by
  refine ⟨by decide, by decide, rfl, ?_⟩
  intro msg h
  rw [show loadProductFifo c3State 1 2 5 =
    .error (.notFound "No available batches found for product 2") from rfl] at h
  simp at h

/-- **C3 (amended).** When the requested quantity exceeds the total remaining
over the candidate batches, `load_product_fifo` fails — with the
insufficient-stock `Validation` error whenever at least one candidate batch
exists, and with `NotFound` when there is none — and in either case the
transaction rolls back: no batch quantity changes and no truck-load item is
created. -/
theorem insufficient_stock_all_or_nothing :
    ∀ (s : DBState) (tlid pid : Nat) (need : Int),
      ((fifoCandidates s pid).map Batch.remaining_quantity).sum < need →
      (fifoCandidates s pid ≠ [] →
        loadProductFifo s tlid pid need =
          .error (.validation ("Insufficient stock for product " ++ toString pid ++
            ". Available: " ++
            toString ((fifoCandidates s pid).map Batch.remaining_quantity).sum ++
            ", Requested: " ++ toString need))) ∧
      (fifoCandidates s pid = [] →
        loadProductFifo s tlid pid need =
          .error (.notFound ("No available batches found for product " ++ toString pid))) ∧
      commitPair s (loadProductFifo s tlid pid need) = s := by
  intro s tlid pid need hlt
  have herr : ∃ e, loadProductFifo s tlid pid need = .error e := by
    unfold loadProductFifo
    by_cases he : (fifoCandidates s pid).isEmpty
    · rw [if_pos he]; exact ⟨_, rfl⟩
    · rw [if_neg he, if_pos hlt]; exact ⟨_, rfl⟩
  refine ⟨?_, ?_, ?_⟩
  · intro hne
    unfold loadProductFifo
    rw [if_neg (by simpa [List.isEmpty_iff] using hne), if_pos hlt]
  · intro he
    unfold loadProductFifo
    rw [if_pos (by simp [he])]
  · rcases herr with ⟨e, he⟩
    simp [commitPair, he]

/-- Witness for C3 (amended): requesting 20 units of product 1 when only
5 + 10 = 15 remain across its two batches fails with the insufficient-stock
`Validation` error and leaves the state unchanged. -/
theorem insufficient_stock_all_or_nothing_witness :
    (((fifoCandidates c1State 1).map Batch.remaining_quantity).sum < 20) ∧
    ((fifoCandidates c1State 1 ≠ [] →
      loadProductFifo c1State 1 1 20 =
        .error (.validation ("Insufficient stock for product " ++ toString 1 ++
          ". Available: " ++
          toString ((fifoCandidates c1State 1).map Batch.remaining_quantity).sum ++
          ", Requested: " ++ toString 20))) ∧
    (fifoCandidates c1State 1 = [] →
      loadProductFifo c1State 1 1 20 =
        .error (.notFound ("No available batches found for product " ++ toString 1))) ∧
    commitPair c1State (loadProductFifo c1State 1 1 20) = c1State) :=
  ⟨by decide, insufficient_stock_all_or_nothing c1State 1 1 20 (by decide)⟩

-- ==================== C4 ====================

/-- **C4.** No allocation path posts a stock movement: FIFO truck loading,
specific-batch truck loading, and sale creation all succeed on states with an
empty movement ledger and leave the ledger empty — no `truck_load_out` or
`sale_out` row is ever inserted, contradicting the claim that every successful
allocation posts a matching movement in the same transaction. -/
theorem allocations_post_no_movements :
    ((loadProductFifo c1State 1 1 8).toOption.map fun p =>
        (p.2.map fun i => (i.batch_id, i.quantity_loaded), p.1.stock_movements))
      = some ([(1, 5), (2, 3)], []) ∧
    ((loadSpecificBatch c1State 1 2 3).toOption.map fun p =>
        (p.2.map fun i => (i.batch_id, i.quantity_loaded), p.1.stock_movements))
      = some ([(2, 3)], []) ∧
    ((createSale saleBaseState saleReq3).toOption.map fun q =>
        (q.2.2.map fun si => (si.batch_id, si.quantity), q.1.stock_movements))
      = some ([(1, 3)], []) := by
  refine ⟨?_, ?_, ?_⟩ <;> with_unfolding_all decide

-- ==================== finalize lemmas (C6, C7) ====================

theorem finalizeReturnItem_reconciliations (s : DBState) (p : TruckLoadItem × Batch) :
    (finalizeReturnItem s p).reconciliations = s.reconciliations := rfl

theorem finalizeReturnItem_reconciliation_items (s : DBState) (p : TruckLoadItem × Batch) :
    (finalizeReturnItem s p).reconciliation_items = s.reconciliation_items := rfl

theorem finalizeReturnsForItem_reconciliations (s : DBState) (it : ReconciliationItem) :
    (finalizeReturnsForItem s it).reconciliations = s.reconciliations := by
  unfold finalizeReturnsForItem
  split
  · exact foldl_preserves finalizeReturnItem DBState.reconciliations
      (fun st x => rfl) (remainingLoadItems s it.truck_load_id) s
  · rfl

theorem finalizeReturnsForItem_reconciliation_items (s : DBState) (it : ReconciliationItem) :
    (finalizeReturnsForItem s it).reconciliation_items = s.reconciliation_items := by
  unfold finalizeReturnsForItem
  split
  · exact foldl_preserves finalizeReturnItem DBState.reconciliation_items
      (fun st x => rfl) (remainingLoadItems s it.truck_load_id) s
  · rfl

theorem finalizeSetTotals_date (items : List ReconciliationItem) (rid : Nat)
    (r : DailyReconciliation) :
    (finalizeSetTotals items rid r).reconciliation_date = r.reconciliation_date := by
  unfold finalizeSetTotals; split <;> rfl

theorem finalizeSetTotals_id (items : List ReconciliationItem) (rid : Nat)
    (r : DailyReconciliation) :
    (finalizeSetTotals items rid r).id = r.id := by
  unfold finalizeSetTotals; split <;> rfl

theorem finalizeSetTotals_self (items : List ReconciliationItem) (r : DailyReconciliation) :
    finalizeSetTotals items r.id r =
      { r with
        status := "finalized"
        total_items_loaded := (items.map ReconciliationItem.items_loaded).sum
        total_items_sold := (items.map ReconciliationItem.items_sold).sum
        total_items_returned := (items.map ReconciliationItem.items_returned).sum
        total_items_discarded := (items.map ReconciliationItem.items_discarded).sum
        total_sales_amount := (items.map ReconciliationItem.sales_amount).sum
        total_commission_earned := (items.map ReconciliationItem.commission_earned).sum
        total_allowance_allocated := (items.map ReconciliationItem.allowance_received).sum
        total_payments_collected := (items.map ReconciliationItem.payments_collected).sum
        pending_payments := (items.map ReconciliationItem.pending_payments).sum
        net_profit :=
          (items.map ReconciliationItem.commission_earned).sum -
            (items.map ReconciliationItem.allowance_received).sum } := by
  unfold finalizeSetTotals
  rw [if_pos (by simp)]

theorem finalizeApply_reconciliation_items (s : DBState) (recon : DailyReconciliation) :
    (finalizeApply s recon).reconciliation_items = s.reconciliation_items := by
  have h1 : (finalizeApply s recon).reconciliation_items =
      ((finalizeItems s recon.id).foldl finalizeReturnsForItem s).reconciliation_items := rfl
  rw [h1]
  exact foldl_preserves finalizeReturnsForItem DBState.reconciliation_items
    finalizeReturnsForItem_reconciliation_items _ s

theorem finalizeApply_reconciliations (s : DBState) (recon : DailyReconciliation) :
    (finalizeApply s recon).reconciliations =
      s.reconciliations.map (finalizeSetTotals (finalizeItems s recon.id) recon.id) := by
  have h1 : (finalizeApply s recon).reconciliations =
      ((finalizeItems s recon.id).foldl finalizeReturnsForItem s).reconciliations.map
        (finalizeSetTotals (finalizeItems s recon.id) recon.id) := rfl
  rw [h1, foldl_preserves finalizeReturnsForItem DBState.reconciliations
    finalizeReturnsForItem_reconciliations _ s]

theorem finalizeReconciliation_ok_shape (s : DBState) (date : Int) (s' : DBState)
    (h : finalizeReconciliation s date = .ok s') :
    ∃ recon, findReconciliation s date = some recon ∧ s' = finalizeApply s recon := by
  unfold finalizeReconciliation at h
  split at h
  · cases h
  case h_2 recon hfind =>
    split at h
    · cases h
    · split at h
      · cases h
      · cases h
        exact ⟨recon, hfind, rfl⟩

theorem finalizeReconciliation_finds_finalized (s : DBState) (date : Int) (s' : DBState)
    (h : finalizeReconciliation s date = .ok s') :
    ∃ recon, findReconciliation s date = some recon ∧
      findReconciliation s' date =
        some (finalizeSetTotals (finalizeItems s recon.id) recon.id recon) := by
  obtain ⟨recon, hfind, hs'⟩ := finalizeReconciliation_ok_shape s date s' h
  refine ⟨recon, hfind, ?_⟩
  have hdate : ∀ x, ((finalizeSetTotals (finalizeItems s recon.id) recon.id x).reconciliation_date
      == date) = (x.reconciliation_date == date) := by
    intro x; rw [finalizeSetTotals_date]
  rw [hs']
  unfold findReconciliation
  rw [finalizeApply_reconciliations]
  exact find?_map_of_pred _ _ hdate s.reconciliations recon hfind

-- ==================== C6 ====================

/-- **C6.** Finalize is terminal: if `finalize_reconciliation` succeeds for a
date, calling it again for the same date fails with
`Conflict "Reconciliation already finalized"`, and — the failed transaction
rolling back — the state after the failed call is exactly the state before it:
every reconciliation row, item, batch and movement is unchanged, so no second
set of `truck_return_in` movements is posted. -/
theorem finalize_second_time_conflicts :
    ∀ (s : DBState) (date : Int) (s' : DBState),
      finalizeReconciliation s date = .ok s' →
        finalizeReconciliation s' date = .error (.conflict "Reconciliation already finalized") ∧
        commitState s' (finalizeReconciliation s' date) = s' := by
  intro s date s' h
  obtain ⟨recon, _, hfind'⟩ := finalizeReconciliation_finds_finalized s date s' h
  have hconf : finalizeReconciliation s' date =
      .error (.conflict "Reconciliation already finalized") := by
    unfold finalizeReconciliation
    rw [hfind']
    have hst : (finalizeSetTotals (finalizeItems s recon.id) recon.id recon).status =
        "finalized" := by
      unfold finalizeSetTotals
      rw [if_pos (by simp)]
    simp [hst]
  exact ⟨hconf, by rw [hconf]; rfl⟩

/-- Witness for C6: finalizing the two-truck reconciliation of `c7State`
succeeds once and conflicts the second time, leaving the state unchanged. -/
theorem finalize_second_time_conflicts_witness :
    (finalizeReconciliation c7State 7 = .ok c7Final) ∧
    (finalizeReconciliation c7Final 7 =
      .error (.conflict "Reconciliation already finalized") ∧
    commitState c7Final (finalizeReconciliation c7Final 7) = c7Final) :=
  ⟨c7Final_eq, finalize_second_time_conflicts c7State 7 c7Final c7Final_eq⟩

-- ==================== C7 ====================

/-- **C7.** A successful finalize stores, in the reconciliation row found for
that date afterwards, each total as the sum of the corresponding field over
that reconciliation's items, with
`net_profit = total_commission_earned - total_allowance_allocated`; and on the
worked example (commissions 500 and 300, allowances 200 and 150 over two
trucks) finalize yields `net_profit = 800 - 350 = 450`. -/
theorem finalize_totals_are_sums :
    (∀ (s : DBState) (date : Int) (s' : DBState),
      finalizeReconciliation s date = .ok s' →
        ∃ recon', findReconciliation s' date = some recon' ∧
          recon'.status = "finalized" ∧
          (let items := s'.reconciliation_items.filter
            (fun ri => ri.reconciliation_id == recon'.id)
           recon'.total_items_loaded = (items.map ReconciliationItem.items_loaded).sum ∧
           recon'.total_items_sold = (items.map ReconciliationItem.items_sold).sum ∧
           recon'.total_items_returned = (items.map ReconciliationItem.items_returned).sum ∧
           recon'.total_items_discarded = (items.map ReconciliationItem.items_discarded).sum ∧
           recon'.total_sales_amount = (items.map ReconciliationItem.sales_amount).sum ∧
           recon'.total_commission_earned =
             (items.map ReconciliationItem.commission_earned).sum ∧
           recon'.total_allowance_allocated =
             (items.map ReconciliationItem.allowance_received).sum ∧
           recon'.total_payments_collected =
             (items.map ReconciliationItem.payments_collected).sum ∧
           recon'.pending_payments = (items.map ReconciliationItem.pending_payments).sum) ∧
          recon'.net_profit = recon'.total_commission_earned - recon'.total_allowance_allocated) ∧
    ((findReconciliation c7Final 7).map fun r =>
        (r.net_profit, r.total_commission_earned, r.total_allowance_allocated))
      = some (450, 800, 350) := by
  constructor
  · intro s date s' h
    obtain ⟨recon, _, hfind'⟩ := finalizeReconciliation_finds_finalized s date s' h
    obtain ⟨_, _, hs'⟩ := finalizeReconciliation_ok_shape s date s' h
    refine ⟨_, hfind', ?_⟩
    have hitems : s'.reconciliation_items.filter
        (fun ri => ri.reconciliation_id ==
          (finalizeSetTotals (finalizeItems s recon.id) recon.id recon).id) =
        finalizeItems s recon.id := by
      rw [finalizeSetTotals_id, hs', finalizeApply_reconciliation_items]
      rfl
    rw [finalizeSetTotals_self]
    refine ⟨rfl, ?_, rfl⟩
    rw [show (finalizeSetTotals (finalizeItems s recon.id) recon.id recon).id = recon.id from
      finalizeSetTotals_id _ _ _] at hitems
    rw [hitems]
    exact ⟨rfl, rfl, rfl, rfl, rfl, rfl, rfl, rfl, rfl⟩
  · with_unfolding_all decide

/-- Witness for C7: the general theorem applied to the two-truck example. -/
theorem finalize_totals_are_sums_witness :
    (finalizeReconciliation c7State 7 = .ok c7Final) ∧
    (∃ recon', findReconciliation c7Final 7 = some recon' ∧
      recon'.status = "finalized" ∧
      (let items := c7Final.reconciliation_items.filter
        (fun ri => ri.reconciliation_id == recon'.id)
       recon'.total_items_loaded = (items.map ReconciliationItem.items_loaded).sum ∧
       recon'.total_items_sold = (items.map ReconciliationItem.items_sold).sum ∧
       recon'.total_items_returned = (items.map ReconciliationItem.items_returned).sum ∧
       recon'.total_items_discarded = (items.map ReconciliationItem.items_discarded).sum ∧
       recon'.total_sales_amount = (items.map ReconciliationItem.sales_amount).sum ∧
       recon'.total_commission_earned = (items.map ReconciliationItem.commission_earned).sum ∧
       recon'.total_allowance_allocated =
         (items.map ReconciliationItem.allowance_received).sum ∧
       recon'.total_payments_collected =
         (items.map ReconciliationItem.payments_collected).sum ∧
       recon'.pending_payments = (items.map ReconciliationItem.pending_payments).sum) ∧
      recon'.net_profit = recon'.total_commission_earned - recon'.total_allowance_allocated) :=
  ⟨c7Final_eq, finalize_totals_are_sums.1 c7State 7 c7Final c7Final_eq⟩

-- ==================== verify lemmas (C8) ====================

theorem verifySetItem_reconciliation_id (iid : Nat) (tr td : Rat) (hd : Bool)
    (x : ReconciliationItem) :
    (verifySetItem iid tr td hd x).reconciliation_id = x.reconciliation_id := by
  unfold verifySetItem; split <;> rfl

theorem verifySetItem_truck_id (iid : Nat) (tr td : Rat) (hd : Bool)
    (x : ReconciliationItem) :
    (verifySetItem iid tr td hd x).truck_id = x.truck_id := by
  unfold verifySetItem; split <;> rfl

theorem verifySetItem_self (tr td : Rat) (hd : Bool) (item : ReconciliationItem) :
    verifySetItem item.id tr td hd item =
      { item with
        items_returned := tr, items_discarded := td
        is_verified := true, has_discrepancy := hd } := by
  unfold verifySetItem; rw [if_pos (by simp)]

theorem setTrucksVerified_date (rid : Nat) (n : Int) (r : DailyReconciliation) :
    (setTrucksVerified rid n r).reconciliation_date = r.reconciliation_date := by
  unfold setTrucksVerified; split <;> rfl

theorem setTrucksVerified_self (n : Int) (r : DailyReconciliation) :
    setTrucksVerified r.id n r = { r with trucks_verified := n } := by
  unfold setTrucksVerified; rw [if_pos (by simp)]

/-- Success equation for `verify_truck_return` under its three preconditions. -/
theorem verifyTruckReturn_run (s : DBState) (date : Int) (tid : Nat) (req : VerifyReq)
    (recon : DailyReconciliation) (item : ReconciliationItem)
    (hfind : findReconciliation s date = some recon)
    (hstatus : recon.status = "in_progress")
    (hitem : findReconItem s recon.id tid = some item) :
    verifyTruckReturn s date tid req = .ok (verifyApply s req recon item) := by
  unfold verifyTruckReturn
  rw [hfind]
  simp only [hstatus, hitem]
  simp

-- ==================== C8 ====================

/-- **C8.** Verification of a truck return on an in-progress reconciliation
always succeeds (a discrepancy is recorded, never a failure): the item stores
`total_returned`/`total_discarded` as the sums of the submitted quantities, is
marked verified, its `has_discrepancy` flag is set exactly when
`|expected_return - (total_returned + total_discarded)| > 0.01` with
`expected_return = items_loaded - items_sold`, and `trucks_verified` is
recomputed as the count of the reconciliation's verified items. -/
theorem verify_truck_return_correct :
    ∀ (s : DBState) (date : Int) (tid : Nat) (req : VerifyReq)
      (recon : DailyReconciliation) (item : ReconciliationItem),
      findReconciliation s date = some recon →
      recon.status = "in_progress" →
      findReconItem s recon.id tid = some item →
      ∃ s', verifyTruckReturn s date tid req = .ok s' ∧
        (∃ item', findReconItem s' recon.id tid = some item' ∧
          item'.items_returned = qtySum req.items_returned ∧
          item'.items_discarded = qtySum req.items_discarded ∧
          item'.is_verified = true ∧
          (item'.has_discrepancy = true ↔
            abs ((item.items_loaded - item.items_sold) -
              (qtySum req.items_returned + qtySum req.items_discarded)) > 1 / 100)) ∧
        (∃ recon', findReconciliation s' date = some recon' ∧
          recon'.trucks_verified =
            ((s'.reconciliation_items.filter
              (fun it => it.reconciliation_id == recon.id && it.is_verified)).length : Int)) := by
  intro s date tid req recon item hfind hstatus hitem
  refine ⟨verifyApply s req recon item,
    verifyTruckReturn_run s date tid req recon item hfind hstatus hitem, ?_, ?_⟩
  · refine ⟨verifySetItem item.id (qtySum req.items_returned) (qtySum req.items_discarded)
      (decide (abs ((item.items_loaded - item.items_sold) -
        (qtySum req.items_returned + qtySum req.items_discarded)) > 1 / 100)) item, ?_, ?_⟩
    · have hp : ∀ x : ReconciliationItem,
          ((verifySetItem item.id (qtySum req.items_returned) (qtySum req.items_discarded)
              (decide (abs ((item.items_loaded - item.items_sold) -
                (qtySum req.items_returned + qtySum req.items_discarded)) > 1 / 100))
              x).reconciliation_id == recon.id &&
            (verifySetItem item.id (qtySum req.items_returned) (qtySum req.items_discarded)
              (decide (abs ((item.items_loaded - item.items_sold) -
                (qtySum req.items_returned + qtySum req.items_discarded)) > 1 / 100))
              x).truck_id == tid) =
          (x.reconciliation_id == recon.id && x.truck_id == tid) := by
        intro x
        rw [verifySetItem_reconciliation_id, verifySetItem_truck_id]
      exact find?_map_of_pred _ _ hp s.reconciliation_items item hitem
    · rw [verifySetItem_self]
      refine ⟨rfl, rfl, rfl, ?_⟩
      exact decide_eq_true_iff
  · refine ⟨setTrucksVerified recon.id
      (((verifyApply s req recon item).reconciliation_items.filter
        (fun it => it.reconciliation_id == recon.id && it.is_verified)).length : Int) recon,
      ?_, ?_⟩
    · have hp : ∀ r : DailyReconciliation,
          ((setTrucksVerified recon.id
              (((verifyApply s req recon item).reconciliation_items.filter
                (fun it => it.reconciliation_id == recon.id && it.is_verified)).length : Int)
              r).reconciliation_date == date) =
          (r.reconciliation_date == date) := by
        intro r
        rw [setTrucksVerified_date]
      exact find?_map_of_pred _ _ hp s.reconciliations recon hfind
    · rw [setTrucksVerified_self]

/-- Witness for C8: verifying truck 1 of the worked reconciliation with
returned 25 and discarded 10 against loaded 100 / sold 60 succeeds and flags a
discrepancy (|40 - 35| = 5 > 0.01). -/
theorem verify_truck_return_correct_witness :
    (findReconciliation c7State 7 = some c7Recon ∧
      c7Recon.status = "in_progress" ∧
      findReconItem c7State c7Recon.id 1 = some c7Item1) ∧
    (∃ s', verifyTruckReturn c7State 7 1
        { items_returned := [{ product_id := 1, quantity := 25 }]
          items_discarded := [{ product_id := 1, quantity := 10 }] } = .ok s' ∧
      (∃ item', findReconItem s' c7Recon.id 1 = some item' ∧
        item'.items_returned =
          qtySum [({ product_id := 1, quantity := 25 } : QtyLine)] ∧
        item'.items_discarded =
          qtySum [({ product_id := 1, quantity := 10 } : QtyLine)] ∧
        item'.is_verified = true ∧
        (item'.has_discrepancy = true ↔
          abs ((c7Item1.items_loaded - c7Item1.items_sold) -
            (qtySum [({ product_id := 1, quantity := 25 } : QtyLine)] +
              qtySum [({ product_id := 1, quantity := 10 } : QtyLine)])) > 1 / 100)) ∧
      (∃ recon', findReconciliation s' 7 = some recon' ∧
        recon'.trucks_verified =
          ((s'.reconciliation_items.filter
            (fun it => it.reconciliation_id == c7Recon.id && it.is_verified)).length : Int))) :=
  ⟨⟨rfl, rfl, rfl⟩,
    verify_truck_return_correct c7State 7 1
      { items_returned := [{ product_id := 1, quantity := 25 }]
        items_discarded := [{ product_id := 1, quantity := 10 }] }
      c7Recon c7Item1 rfl rfl rfl⟩

-- ==================== C5 ====================

/-- **C5.** A successful sale updates neither `TruckLoadItem.quantity_sold`
nor the movement ledger: after selling 3 units drawn from truck-load item 4
(batch 1), that item's `quantity_sold` is still 0 — so the load's remaining
availability does not decrease — and no `sale_out` movement exists. -/
theorem sale_leaves_quantity_sold_unchanged :
    ((createSale saleBaseState saleReq3).toOption.map fun q =>
        ((q.2.2.map SaleItem.quantity).sum, q.2.2.map SaleItem.batch_id))
      = some (3, [1]) ∧
    ((createSale saleBaseState saleReq3).toOption.map fun q => findLoadItem q.1 3 1)
      = some (findLoadItem saleBaseState 3 1) ∧
    ((createSale saleBaseState saleReq3).toOption.map fun q =>
        ((findLoadItem q.1 3 1).map fun i => (i.quantity_sold, saleAvail i)))
      = some (some (0, 5)) ∧
    ((createSale saleBaseState saleReq3).toOption.map fun q => q.1.stock_movements)
      = some [] := by
  refine ⟨?_, ?_, ?_, ?_⟩ <;> with_unfolding_all decide

-- ==================== reconcile lemmas (C9) ====================

theorem find?_map_comm {α : Type} (p : α → Bool) (g : α → α) (hg : ∀ x, p (g x) = p x) :
    ∀ (l : List α), (l.map g).find? p = (l.find? p).map g := by
  intro l
  induction l with
  | nil => rfl
  | cons x xs ih =>
    by_cases hx : p x = true
    · rw [List.map_cons, List.find?_cons_of_pos _ ((hg x).trans hx),
        List.find?_cons_of_pos _ hx]
      rfl
    · have hngx : ¬ p (g x) = true := by rw [hg x]; exact hx
      rw [List.map_cons, List.find?_cons_of_neg _ (by simpa using hngx),
        List.find?_cons_of_neg _ (by simpa using hx), ih]

theorem batchRemaining_update_self (s : DBState) (bid : Nat) (d : Int) :
    batchRemaining (updateBatchRemaining s bid d) bid =
      (batchRemaining s bid).map (fun q => q + d) := by
  have hg : ∀ b : Batch,
      (((if b.id == bid then
          { b with remaining_quantity := b.remaining_quantity + d } else b) : Batch).id == bid) =
        (b.id == bid) := by
    intro b; split <;> rfl
  unfold batchRemaining findBatch updateBatchRemaining
  rw [find?_map_comm _ _ hg]
  cases hf : s.batches.find? (fun b => b.id == bid) with
  | none => rfl
  | some b =>
    have hb := List.find?_some hf
    have hid : b.id = bid := by simpa using hb
    simp [hid]

theorem batchRemaining_update_other (s : DBState) (bid bid' : Nat) (d : Int)
    (h : bid' ≠ bid) :
    batchRemaining (updateBatchRemaining s bid d) bid' = batchRemaining s bid' := by
  have hg : ∀ b : Batch,
      (((if b.id == bid then
          { b with remaining_quantity := b.remaining_quantity + d } else b) : Batch).id == bid') =
        (b.id == bid') := by
    intro b; split <;> rfl
  unfold batchRemaining findBatch updateBatchRemaining
  rw [find?_map_comm _ _ hg]
  cases hf : s.batches.find? (fun b => b.id == bid') with
  | none => rfl
  | some b =>
    have hb := List.find?_some hf
    have hidb : b.id = bid' := by simpa using hb
    simp [hidb, h]

theorem setItemReturned_batches (s : DBState) (tlid bid : Nat) (q : Int) :
    (setItemReturned s tlid bid q).batches = s.batches := rfl

theorem setItemReturned_stock_movements (s : DBState) (tlid bid : Nat) (q : Int) :
    (setItemReturned s tlid bid q).stock_movements = s.stock_movements := rfl

theorem setItemReturned_truck_loads (s : DBState) (tlid bid : Nat) (q : Int) :
    (setItemReturned s tlid bid q).truck_loads = s.truck_loads := rfl

theorem updateBatchRemaining_items (s : DBState) (bid : Nat) (d : Int) :
    (updateBatchRemaining s bid d).truck_load_items = s.truck_load_items := rfl

theorem updateBatchRemaining_stock_movements (s : DBState) (bid : Nat) (d : Int) :
    (updateBatchRemaining s bid d).stock_movements = s.stock_movements := rfl

theorem updateBatchRemaining_truck_loads (s : DBState) (bid : Nat) (d : Int) :
    (updateBatchRemaining s bid d).truck_loads = s.truck_loads := rfl

theorem setItemReturned_pred (tlid bid : Nat) (q : Int) (tl' b' : Nat) :
    ∀ x : TruckLoadItem,
      ((((if x.truck_load_id == tlid && x.batch_id == bid then
          { x with quantity_returned := q } else x) : TruckLoadItem).truck_load_id == tl') &&
        (((if x.truck_load_id == tlid && x.batch_id == bid then
          { x with quantity_returned := q } else x) : TruckLoadItem).batch_id == b')) =
      ((x.truck_load_id == tl') && (x.batch_id == b')) := by
  intro x; split <;> rfl

theorem findLoadItem_setItemReturned_other (s : DBState) (tlid bid : Nat) (q : Int)
    (tl' b' : Nat) (h : b' ≠ bid) :
    findLoadItem (setItemReturned s tlid bid q) tl' b' = findLoadItem s tl' b' := by
  unfold findLoadItem setItemReturned
  refine find?_map_invariant _ _ (setItemReturned_pred tlid bid q tl' b') ?_ _
  intro x hx
  have hxb : x.batch_id = b' := by
    have := (Bool.and_eq_true _ _).mp hx
    simpa using this.2
  have : (x.truck_load_id == tlid && x.batch_id == bid) = false := by
    have : (x.batch_id == bid) = false := by simp [hxb, h]
    simp [this]
  simp [this]

theorem findLoadItem_setItemReturned_found (s : DBState) (tlid bid : Nat) (q : Int)
    (item : TruckLoadItem) (h : findLoadItem s tlid bid = some item) :
    findLoadItem (setItemReturned s tlid bid q) tlid bid =
      some { item with quantity_returned := q } := by
  unfold findLoadItem setItemReturned
  have step := find?_map_of_pred _ _ (setItemReturned_pred tlid bid q tlid bid)
    s.truck_load_items item h
  rw [step]
  have h2 : s.truck_load_items.find?
      (fun i => i.truck_load_id == tlid && i.batch_id == bid) = some item := h
  have hkey := List.find?_some h2
  simp [hkey]

theorem reconcileStep_ok_shape (tlid : Nat) (s : DBState) (r : TruckLoadReturnItem)
    (s1 : DBState) (h : reconcileStep tlid s r = .ok s1) :
    ∃ item, findLoadItem s tlid r.batch_id = some item ∧
      item.quantity_sold + r.quantity_returned ≤ item.quantity_loaded ∧
      s1 = updateBatchRemaining (setItemReturned s tlid r.batch_id r.quantity_returned)
        r.batch_id r.quantity_returned := by
  unfold reconcileStep at h
  split at h
  · cases h
  case h_2 item hfind =>
    split at h
    · cases h
    case isFalse hle =>
      cases h
      exact ⟨item, hfind, by omega, rfl⟩

theorem reconcileStep_none (tlid : Nat) (s : DBState) (r : TruckLoadReturnItem)
    (h : findLoadItem s tlid r.batch_id = none) :
    reconcileStep tlid s r =
      .error (.notFound ("Batch " ++ toString r.batch_id ++
        " not found in this truck load")) := by
  unfold reconcileStep
  rw [h]

theorem reconcileStep_over_return (tlid : Nat) (s : DBState) (r : TruckLoadReturnItem)
    (item : TruckLoadItem) (hfind : findLoadItem s tlid r.batch_id = some item)
    (hover : item.quantity_loaded < item.quantity_sold + r.quantity_returned) :
    reconcileStep tlid s r =
      .error (.validation ("Batch " ++ toString r.batch_id ++
        ": Total sold (" ++ toString item.quantity_sold ++ ") + returned (" ++
        toString r.quantity_returned ++ ") cannot exceed loaded quantity (" ++
        toString item.quantity_loaded ++ ")")) := by
  unfold reconcileStep
  rw [hfind]
  simp only [if_pos hover]

theorem reconcileLoop_ok_stock_movements (tlid : Nat) :
    ∀ (rets : List TruckLoadReturnItem) (s sm : DBState),
      reconcileLoop tlid s rets = .ok sm → sm.stock_movements = s.stock_movements := by
  intro rets
  induction rets with
  | nil => intro s sm h; cases h; rfl
  | cons r rest ih =>
    intro s sm h
    unfold reconcileLoop at h
    split at h
    · cases h
    case h_2 s1 hstep =>
      obtain ⟨item, _, _, hs1⟩ := reconcileStep_ok_shape tlid s r s1 hstep
      rw [ih s1 sm h, hs1]
      rfl

theorem reconcileLoop_ok_truck_loads (tlid : Nat) :
    ∀ (rets : List TruckLoadReturnItem) (s sm : DBState),
      reconcileLoop tlid s rets = .ok sm → sm.truck_loads = s.truck_loads := by
  intro rets
  induction rets with
  | nil => intro s sm h; cases h; rfl
  | cons r rest ih =>
    intro s sm h
    unfold reconcileLoop at h
    split at h
    · cases h
    case h_2 s1 hstep =>
      obtain ⟨item, _, _, hs1⟩ := reconcileStep_ok_shape tlid s r s1 hstep
      rw [ih s1 sm h, hs1]
      rfl

theorem reconcileLoop_item_none (tlid : Nat) :
    ∀ (rets : List TruckLoadReturnItem) (s sm : DBState),
      reconcileLoop tlid s rets = .ok sm →
      ∀ (t b : Nat), findLoadItem s t b = none → findLoadItem sm t b = none := by
  intro rets
  induction rets with
  | nil => intro s sm h; cases h; intro t b hb; exact hb
  | cons r rest ih =>
    intro s sm h t b hb
    unfold reconcileLoop at h
    split at h
    · cases h
    case h_2 s1 hstep =>
      obtain ⟨item, _, _, hs1⟩ := reconcileStep_ok_shape tlid s r s1 hstep
      refine ih s1 sm h t b ?_
      rw [hs1]
      show (setItemReturned s tlid r.batch_id r.quantity_returned).truck_load_items.find? _ = none
      unfold setItemReturned
      rw [find?_map_comm _ _ (setItemReturned_pred tlid r.batch_id r.quantity_returned t b)]
      unfold findLoadItem at hb
      rw [hb]
      rfl

theorem reconcileLoop_item_fields (tlid : Nat) :
    ∀ (rets : List TruckLoadReturnItem) (s sm : DBState),
      reconcileLoop tlid s rets = .ok sm →
      ∀ (t b : Nat) (item : TruckLoadItem), findLoadItem s t b = some item →
        ∃ item', findLoadItem sm t b = some item' ∧
          item'.quantity_loaded = item.quantity_loaded ∧
          item'.quantity_sold = item.quantity_sold := by
  intro rets
  induction rets with
  | nil => intro s sm h; cases h; intro t b item hb; exact ⟨item, hb, rfl, rfl⟩
  | cons r rest ih =>
    intro s sm h t b item hb
    unfold reconcileLoop at h
    split at h
    · cases h
    case h_2 s1 hstep =>
      obtain ⟨item0, _, _, hs1⟩ := reconcileStep_ok_shape tlid s r s1 hstep
      have hfind1 : findLoadItem s1 t b =
          some (if item.truck_load_id == tlid && item.batch_id == r.batch_id then
            { item with quantity_returned := r.quantity_returned } else item) := by
        rw [hs1]
        show (setItemReturned s tlid r.batch_id r.quantity_returned).truck_load_items.find? _
          = _
        unfold setItemReturned
        exact find?_map_of_pred _ _
          (setItemReturned_pred tlid r.batch_id r.quantity_returned t b)
          s.truck_load_items item hb
      obtain ⟨item', hfind', hl, hsold⟩ := ih s1 sm h t b _ hfind1
      refine ⟨item', hfind', ?_, ?_⟩
      · rw [hl]; split <;> rfl
      · rw [hsold]; split <;> rfl

theorem reconcileLoop_error_at (tlid : Nat) :
    ∀ (pre : List TruckLoadReturnItem) (s sm : DBState) (r : TruckLoadReturnItem)
      (post : List TruckLoadReturnItem) (e : AppErr),
      reconcileLoop tlid s pre = .ok sm → reconcileStep tlid sm r = .error e →
      reconcileLoop tlid s (pre ++ r :: post) = .error e := by
  intro pre
  induction pre with
  | nil =>
    intro s sm r post e hok hstep
    cases hok
    show reconcileLoop tlid s (r :: post) = .error e
    unfold reconcileLoop
    rw [hstep]
  | cons r0 rest ih =>
    intro s sm r post e hok hstep
    unfold reconcileLoop at hok
    split at hok
    · cases hok
    case h_2 s1 hstep0 =>
      show reconcileLoop tlid s (r0 :: (rest ++ r :: post)) = .error e
      unfold reconcileLoop
      rw [hstep0]
      exact ih s1 sm r post e hok hstep

theorem reconcileLoop_untouched (tlid : Nat) :
    ∀ (rets : List TruckLoadReturnItem) (s sm : DBState),
      reconcileLoop tlid s rets = .ok sm →
      ∀ b : Nat, b ∉ rets.map (fun r => r.batch_id) →
        batchRemaining sm b = batchRemaining s b ∧
        findLoadItem sm tlid b = findLoadItem s tlid b := by
  intro rets
  induction rets with
  | nil => intro s sm h; cases h; intro b _; exact ⟨rfl, rfl⟩
  | cons r rest ih =>
    intro s sm h b hb
    unfold reconcileLoop at h
    split at h
    · cases h
    case h_2 s1 hstep =>
      obtain ⟨item, _, _, hs1⟩ := reconcileStep_ok_shape tlid s r s1 hstep
      have hbne : b ≠ r.batch_id := by
        intro hcontra
        exact hb (by simp [hcontra])
      have hrest : b ∉ rest.map (fun r => r.batch_id) := by
        intro hcontra
        exact hb (by simp [hcontra])
      obtain ⟨hbat, hitem⟩ := ih s1 sm h b hrest
      constructor
      · rw [hbat, hs1, batchRemaining_update_other _ _ _ _ hbne]
        rfl
      · rw [hitem, hs1]
        show findLoadItem (setItemReturned s tlid r.batch_id r.quantity_returned) tlid b = _
        exact findLoadItem_setItemReturned_other s tlid r.batch_id r.quantity_returned
          tlid b hbne

theorem reconcileLoop_effects (tlid : Nat) :
    ∀ (rets : List TruckLoadReturnItem) (s sm : DBState),
      reconcileLoop tlid s rets = .ok sm →
      (rets.map (fun r => r.batch_id)).Nodup →
      ∀ r ∈ rets,
        batchRemaining sm r.batch_id =
          (batchRemaining s r.batch_id).map (fun q => q + r.quantity_returned) ∧
        (findLoadItem sm tlid r.batch_id).map TruckLoadItem.quantity_returned =
          (findLoadItem s tlid r.batch_id).map (fun _ => r.quantity_returned) := by
  intro rets
  induction rets with
  | nil => intro s sm h _ r hr; exact absurd hr (by simp)
  | cons r0 rest ih =>
    intro s sm h hnd r hr
    unfold reconcileLoop at h
    split at h
    · cases h
    case h_2 s1 hstep =>
      obtain ⟨item, hfound, _, hs1⟩ := reconcileStep_ok_shape tlid s r0 s1 hstep
      rw [List.map_cons] at hnd
      have hnotin : r0.batch_id ∉ rest.map (fun x => x.batch_id) :=
        (List.nodup_cons.mp hnd).1
      have hndrest : (rest.map (fun x => x.batch_id)).Nodup :=
        (List.nodup_cons.mp hnd).2
      rcases List.mem_cons.mp hr with hr0 | hrest
      · subst hr0
        obtain ⟨hbat, hitem⟩ := reconcileLoop_untouched tlid rest s1 sm h r.batch_id hnotin
        constructor
        · rw [hbat, hs1, batchRemaining_update_self]
          rfl
        · rw [hitem, hs1]
          have : findLoadItem
              (setItemReturned s tlid r.batch_id r.quantity_returned) tlid r.batch_id =
              some { item with quantity_returned := r.quantity_returned } :=
            findLoadItem_setItemReturned_found s tlid r.batch_id r.quantity_returned item
              hfound
          rw [show findLoadItem (updateBatchRemaining
              (setItemReturned s tlid r.batch_id r.quantity_returned)
              r.batch_id r.quantity_returned) tlid r.batch_id =
            findLoadItem (setItemReturned s tlid r.batch_id r.quantity_returned)
              tlid r.batch_id from rfl]
          rw [this, hfound]
          rfl
      · have hbne : r.batch_id ≠ r0.batch_id := by
          intro hcontra
          exact hnotin (hcontra ▸ (by simp [List.mem_map]; exact ⟨r, hrest, rfl⟩))
        obtain ⟨hbat, hitem⟩ := ih s1 sm h hndrest r hrest
        have hbat1 : batchRemaining s1 r.batch_id = batchRemaining s r.batch_id := by
          rw [hs1, batchRemaining_update_other _ _ _ _ hbne]
          rfl
        have hitem1 : findLoadItem s1 tlid r.batch_id = findLoadItem s tlid r.batch_id := by
          rw [hs1]
          show findLoadItem (setItemReturned s tlid r0.batch_id r0.quantity_returned)
            tlid r.batch_id = _
          exact findLoadItem_setItemReturned_other s tlid r0.batch_id r0.quantity_returned
            tlid r.batch_id hbne
        exact ⟨by rw [hbat, hbat1], by rw [hitem, hitem1]⟩

theorem reconcileTruckLoad_ok_shape (s : DBState) (id : Nat)
    (rets : List TruckLoadReturnItem) (s' : DBState)
    (h : reconcileTruckLoad s id rets = .ok s') :
    ∃ tl sm, findTruckLoad s id = some tl ∧ (tl.status == "reconciled") = false ∧
      reconcileLoop id s rets = .ok sm ∧ s' = setLoadStatus sm id "reconciled" := by
  unfold reconcileTruckLoad at h
  split at h
  · cases h
  case h_2 tl hfind =>
    split at h
    · cases h
    case isFalse hst =>
      split at h
      · cases h
      case h_2 sm hloop =>
        cases h
        exact ⟨tl, sm, hfind, by simpa using hst, hloop, rfl⟩

theorem setLoadStatus_effects (s : DBState) (tlid : Nat) (st : String) :
    (setLoadStatus s tlid st).stock_movements = s.stock_movements ∧
    (setLoadStatus s tlid st).batches = s.batches ∧
    (setLoadStatus s tlid st).truck_load_items = s.truck_load_items :=
  ⟨rfl, rfl, rfl⟩

theorem findTruckLoad_setLoadStatus (s : DBState) (tlid : Nat) (st : String)
    (tl : TruckLoad) (h : findTruckLoad s tlid = some tl) :
    findTruckLoad (setLoadStatus s tlid st) tlid = some { tl with status := st } := by
  have hg : ∀ x : TruckLoad,
      ((((if x.id == tlid then { x with status := st } else x) : TruckLoad).id == tlid)) =
        (x.id == tlid) := by
    intro x; split <;> rfl
  unfold findTruckLoad setLoadStatus
  have h2 : s.truck_loads.find? (fun x => x.id == tlid) = some tl := h
  have step := find?_map_of_pred _ _ hg s.truck_loads tl h2
  rw [step]
  have hkey := List.find?_some h2
  simp [hkey]

-- ==================== C9 ====================

/-- **C9 counterexample.** Reconciling truck load 1 with one valid return
entry (batch 1, 5 units) succeeds, increases the batch's remaining quantity
and flips the status — but posts no stock movement at all: the ledger is as
empty after the call as before, refuting the claim's "a truck_return_in
movement is posted for it". -/
theorem reconcile_posts_no_movement :
    ((reconcileTruckLoad c9State 1 c9Rets).toOption.map fun s =>
        (batchRemaining s 1, (findTruckLoad s 1).map TruckLoad.status, s.stock_movements))
      = some (some 5, some "reconciled", []) ∧
    c9State.stock_movements = [] := by
  exact ⟨by decide, rfl⟩

/-- **C9 (amended).** `reconcile_truck_load`: a load that is already
`reconciled` fails with `Conflict`; on success the load's status becomes
`reconciled`, each (distinct) entry's batch gains exactly its
`quantity_returned` and its item's `quantity_returned` is set to the submitted
value, while the stock-movement ledger is left untouched (no `truck_return_in`
movement is posted); an entry whose `batch_id` is not an item of the load
fails the call with `NotFound`, and an entry with
`quantity_sold + quantity_returned > quantity_loaded` fails it with
`Validation` — in both cases provided the entries before it processed
successfully. -/
theorem reconcile_truck_load_behaviour :
    (∀ (s : DBState) (id : Nat) (rets : List TruckLoadReturnItem) (tl : TruckLoad),
      findTruckLoad s id = some tl → tl.status = "reconciled" →
      reconcileTruckLoad s id rets =
        .error (.conflict "Truck load is already reconciled")) ∧
    (∀ (s : DBState) (id : Nat) (rets : List TruckLoadReturnItem) (s' : DBState),
      reconcileTruckLoad s id rets = .ok s' →
        (findTruckLoad s' id).map TruckLoad.status = some "reconciled" ∧
        s'.stock_movements = s.stock_movements ∧
        ((rets.map (fun r => r.batch_id)).Nodup →
          ∀ r ∈ rets,
            batchRemaining s' r.batch_id =
              (batchRemaining s r.batch_id).map (fun q => q + r.quantity_returned) ∧
            (findLoadItem s' id r.batch_id).map TruckLoadItem.quantity_returned =
              (findLoadItem s id r.batch_id).map (fun _ => r.quantity_returned))) ∧
    (∀ (s : DBState) (id : Nat) (pre post : List TruckLoadReturnItem)
      (r : TruckLoadReturnItem) (tl : TruckLoad) (sm : DBState),
      findTruckLoad s id = some tl → tl.status ≠ "reconciled" →
      reconcileLoop id s pre = .ok sm →
      findLoadItem s id r.batch_id = none →
      reconcileTruckLoad s id (pre ++ r :: post) =
        .error (.notFound ("Batch " ++ toString r.batch_id ++
          " not found in this truck load"))) ∧
    (∀ (s : DBState) (id : Nat) (pre post : List TruckLoadReturnItem)
      (r : TruckLoadReturnItem) (tl : TruckLoad) (sm : DBState) (item : TruckLoadItem),
      findTruckLoad s id = some tl → tl.status ≠ "reconciled" →
      reconcileLoop id s pre = .ok sm →
      findLoadItem s id r.batch_id = some item →
      item.quantity_loaded < item.quantity_sold + r.quantity_returned →
      reconcileTruckLoad s id (pre ++ r :: post) =
        .error (.validation ("Batch " ++ toString r.batch_id ++
          ": Total sold (" ++ toString item.quantity_sold ++ ") + returned (" ++
          toString r.quantity_returned ++ ") cannot exceed loaded quantity (" ++
          toString item.quantity_loaded ++ ")"))) := by
  refine ⟨?_, ?_, ?_, ?_⟩
  · intro s id rets tl hfind hst
    unfold reconcileTruckLoad
    rw [hfind]
    simp [hst]
  · intro s id rets s' h
    obtain ⟨tl, sm, hfind, _, hloop, hs'⟩ := reconcileTruckLoad_ok_shape s id rets s' h
    have hfindm : findTruckLoad sm id = some tl := by
      unfold findTruckLoad
      rw [reconcileLoop_ok_truck_loads id rets s sm hloop]
      exact hfind
    refine ⟨?_, ?_, ?_⟩
    · rw [hs', findTruckLoad_setLoadStatus sm id "reconciled" tl hfindm]
      rfl
    · rw [hs']
      exact (setLoadStatus_effects sm id "reconciled").1.trans
        (reconcileLoop_ok_stock_movements id rets s sm hloop)
    · intro hnd r hr
      obtain ⟨hbat, hitem⟩ := reconcileLoop_effects id rets s sm hloop hnd r hr
      constructor
      · rw [hs']
        exact hbat
      · rw [hs']
        exact hitem
  · intro s id pre post r tl sm hfind hst hloop hnone
    have hnonem : findLoadItem sm id r.batch_id = none :=
      reconcileLoop_item_none id pre s sm hloop id r.batch_id hnone
    have herr := reconcileLoop_error_at id pre s sm r post _ hloop
      (reconcileStep_none id sm r hnonem)
    have hst2 : (tl.status == "reconciled") = false := by simpa using hst
    unfold reconcileTruckLoad
    rw [hfind]
    simp [hst2, herr]
  · intro s id pre post r tl sm item hfind hst hloop hsome hover
    obtain ⟨item', hfind', hl, hsold⟩ :=
      reconcileLoop_item_fields id pre s sm hloop id r.batch_id item hsome
    have hover' : item'.quantity_loaded < item'.quantity_sold + r.quantity_returned := by
      rw [hl, hsold]
      exact hover
    have hstep := reconcileStep_over_return id sm r item' hfind' hover'
    rw [hl, hsold] at hstep
    have herr := reconcileLoop_error_at id pre s sm r post _ hloop hstep
    have hst2 : (tl.status == "reconciled") = false := by simpa using hst
    unfold reconcileTruckLoad
    rw [hfind]
    simp [hst2, herr]

/-- Witness for C9 (amended): the concrete reconcile of `c9State` — success
effects at the one-entry return list, and the `Conflict` the second time. -/
theorem reconcile_truck_load_behaviour_witness :
    ((findTruckLoad c9After 1).map TruckLoad.status = some "reconciled" ∧
      c9After.stock_movements = c9State.stock_movements ∧
      ((c9Rets.map (fun r => r.batch_id)).Nodup →
        ∀ r ∈ c9Rets,
          batchRemaining c9After r.batch_id =
            (batchRemaining c9State r.batch_id).map (fun q => q + r.quantity_returned) ∧
          (findLoadItem c9After 1 r.batch_id).map TruckLoadItem.quantity_returned =
            (findLoadItem c9State 1 r.batch_id).map (fun _ => r.quantity_returned))) ∧
    (findTruckLoad c9After 1 = some { id := 1, truck_id := 1, load_date := 7
                                      status := "reconciled" } ∧
      reconcileTruckLoad c9After 1 c9Rets =
        .error (.conflict "Truck load is already reconciled")) :=
  ⟨reconcile_truck_load_behaviour.2.1 c9State 1 c9Rets c9After c9After_eq,
    ⟨by decide,
      reconcile_truck_load_behaviour.1 c9After 1 c9Rets
        { id := 1, truck_id := 1, load_date := 7, status := "reconciled" }
        (by decide) rfl⟩⟩

-- ==================== sale lemmas (C10) ====================

theorem forall₂_comp {α β γ : Type} (R : α → β → Prop) (S : β → γ → Prop) (T : α → γ → Prop)
    (hT : ∀ a b c, R a b → S b c → T a c) :
    ∀ (la : List α) (lb : List β) (lc : List γ),
      List.Forall₂ R la lb → List.Forall₂ S lb lc → List.Forall₂ T la lc := by
  intro la lb lc h1
  induction h1 generalizing lc with
  | nil =>
    intro h2
    cases h2
    exact List.Forall₂.nil
  | cons hR _ ih =>
    intro h2
    cases h2 with
    | cons hS htail =>
      exact List.Forall₂.cons (hT _ _ _ hR hS) (ih _ htail)

theorem saleLinesLoop_ok (s : DBState) (tlid : Nat) :
    ∀ (lines : List SaleLine) (pending : List PendingSaleItem),
      saleLinesLoop s tlid lines = .ok pending →
      List.Forall₂ (fun (p : PendingSaleItem) (line : SaleLine) =>
        processSaleLine s tlid line = .ok p) pending lines := by
  intro lines
  induction lines with
  | nil =>
    intro pending h
    cases h
    exact List.Forall₂.nil
  | cons line rest ih =>
    intro pending h
    unfold saleLinesLoop at h
    split at h
    · cases h
    case h_2 p hp =>
      split at h
      · cases h
      case h_2 tail htail =>
        cases h
        exact List.Forall₂.cons hp (ih tail htail)

theorem processSaleLine_ok (s : DBState) (tlid : Nat) (line : SaleLine)
    (p : PendingSaleItem) (h : processSaleLine s tlid line = .ok p) :
    ∃ pr, findSaleBatch s tlid line.product_id line.quantity = some pr ∧
      p.batch_id = pr.2.id ∧ p.quantity = line.quantity := by
  unfold processSaleLine at h
  split at h
  · cases h
  · split at h
    · cases h
    case h_2 product hprod =>
      dsimp only at h
      by_cases hpr : line.unit_price.getD product.current_wholesale_price < 0
      · rw [if_pos hpr] at h
        cases h
      · rw [if_neg hpr] at h
        split at h
        · cases h
        next ti batch hpr2 =>
          cases h
          exact ⟨(ti, batch), hpr2, rfl, rfl⟩

theorem insertSaleItems_rows (sid : Nat) :
    ∀ (pending : List PendingSaleItem) (s : DBState),
      List.Forall₂ (fun (row : SaleItem) (p : PendingSaleItem) =>
        row.batch_id = p.batch_id ∧ row.quantity = p.quantity)
        (insertSaleItems sid s pending).2 pending := by
  intro pending
  induction pending with
  | nil => intro s; exact List.Forall₂.nil
  | cons p ps ih =>
    intro s
    exact List.Forall₂.cons ⟨rfl, rfl⟩ (ih _)

theorem createSale_ok_shape (s : DBState) (req : CreateSaleReq) (s' : DBState)
    (sale : Sale) (rows : List SaleItem)
    (h : createSale s req = .ok (s', sale, rows)) :
    ∃ pending, saleLinesLoop s req.truck_load_id req.items = .ok pending ∧
      List.Forall₂ (fun (row : SaleItem) (p : PendingSaleItem) =>
        row.batch_id = p.batch_id ∧ row.quantity = p.quantity) rows pending := by
  unfold createSale at h
  split at h
  · cases h
  · split at h
    · cases h
    case h_2 tl htl =>
      split at h
      · cases h
      · split at h
        · cases h
        case h_2 pending hloop =>
          dsimp only at h
          split at h
          · cases h
          · split at h
            · cases h
            · cases h
              exact ⟨pending, hloop, insertSaleItems_rows _ pending _⟩

theorem saleLinesLoop_error_at (s : DBState) (tlid : Nat) :
    ∀ (pre : List SaleLine) (line : SaleLine) (post : List SaleLine) (e : AppErr),
      (∀ l ∈ pre, ∃ p, processSaleLine s tlid l = .ok p) →
      processSaleLine s tlid line = .error e →
      saleLinesLoop s tlid (pre ++ line :: post) = .error e := by
  intro pre
  induction pre with
  | nil =>
    intro line post e _ hline
    show saleLinesLoop s tlid (line :: post) = .error e
    unfold saleLinesLoop
    rw [hline]
  | cons l0 rest ih =>
    intro line post e hok hline
    obtain ⟨p0, hp0⟩ := hok l0 (by simp)
    show saleLinesLoop s tlid (l0 :: (rest ++ line :: post)) = .error e
    unfold saleLinesLoop
    rw [hp0, ih line post e (fun l hl => hok l (by simp [hl])) hline]

theorem processSaleLine_insufficient (s : DBState) (tlid : Nat) (line : SaleLine)
    (product : Product)
    (hqty : 0 < line.quantity)
    (hprod : findProduct s line.product_id = some product)
    (hprice : ¬ line.unit_price.getD product.current_wholesale_price < 0)
    (hnone : findSaleBatch s tlid line.product_id line.quantity = none) :
    processSaleLine s tlid line =
      .error (.validation ("Insufficient quantity for product '" ++ product.name ++
        "' in truck load. Need " ++ toString line.quantity ++
        ", but not enough available.")) := by
  unfold processSaleLine
  rw [if_neg (by omega), hprod]
  simp [hprice, hnone]

-- ==================== C10 ====================

/-- **C10.** Each sale line of `create_sale` is drawn from exactly one batch:
on success, the sale items correspond line-for-line to the request, each
taking its full quantity from the single batch selected by `findSaleBatch` —
the earliest-by-`(expiry_date, created_at)` truck-load batch of that product
whose own availability (`quantity_loaded - quantity_sold - quantity_returned`)
covers the whole requested quantity; `findSaleBatch` indeed returns a covering
candidate minimal in that order; and when no single batch covers a line's
quantity the sale fails with the insufficient-quantity `Validation` error —
regardless of the summed availability — so a quantity is never split across
batches. -/
theorem sale_single_batch_per_line :
    (∀ (s : DBState) (req : CreateSaleReq) (s' : DBState) (sale : Sale)
      (rows : List SaleItem),
      createSale s req = .ok (s', sale, rows) →
        List.Forall₂ (fun (row : SaleItem) (line : SaleLine) =>
          ∃ pr, findSaleBatch s req.truck_load_id line.product_id line.quantity = some pr ∧
            row.batch_id = pr.2.id ∧ row.quantity = line.quantity) rows req.items) ∧
    (∀ (s : DBState) (tlid pid : Nat) (qty : Int) (pr : TruckLoadItem × Batch),
      findSaleBatch s tlid pid qty = some pr →
        qty ≤ saleAvail pr.1 ∧ pr ∈ saleCandidates s tlid pid ∧
        ∀ p ∈ saleCandidates s tlid pid, qty ≤ saleAvail p.1 → salePairRel pr p) ∧
    (∀ (s : DBState) (req : CreateSaleReq) (pre post : List SaleLine) (line : SaleLine)
      (tl : TruckLoad) (product : Product),
      req.items = pre ++ line :: post →
      findTruckLoad s req.truck_load_id = some tl →
      s.shops.contains req.shop_id = true →
      (∀ l ∈ pre, ∃ p, processSaleLine s req.truck_load_id l = .ok p) →
      0 < line.quantity →
      findProduct s line.product_id = some product →
      ¬ line.unit_price.getD product.current_wholesale_price < 0 →
      findSaleBatch s req.truck_load_id line.product_id line.quantity = none →
      createSale s req = .error (.validation ("Insufficient quantity for product '" ++
        product.name ++ "' in truck load. Need " ++ toString line.quantity ++
        ", but not enough available."))) := by
  refine ⟨?_, ?_, ?_⟩
  · intro s req s' sale rows h
    obtain ⟨pending, hloop, hrows⟩ := createSale_ok_shape s req s' sale rows h
    have hlines := saleLinesLoop_ok s req.truck_load_id req.items pending hloop
    refine forall₂_comp _ _ _ ?_ rows pending req.items hrows hlines
    intro row p line hrp hpl
    obtain ⟨pr, hpr, hbid, hq⟩ := processSaleLine_ok s req.truck_load_id line p hpl
    exact ⟨pr, hpr, hrp.1.trans hbid, hrp.2.trans hq⟩
  · intro s tlid pid qty pr h
    have hmem := find?_mem_of_some _ (saleCandidates s tlid pid) pr h
    refine ⟨by simpa using hmem.2, hmem.1, ?_⟩
    intro p hp hple
    exact find?_sorted_minimal salePairRel _ (saleCandidates s tlid pid) pr
      (List.sorted_insertionSort salePairRel _) h p hp (by simpa using hple)
  · intro s req pre post line tl product hitems htl hshop hok hqty hprod hprice hnone
    have hline := processSaleLine_insufficient s req.truck_load_id line product
      hqty hprod hprice hnone
    have hloop := saleLinesLoop_error_at s req.truck_load_id pre line post _ hok hline
    have hne : req.items.isEmpty = false := by
      rw [hitems]
      cases pre <;> rfl
    have hmem : req.shop_id ∈ s.shops := by simpa using hshop
    rw [← hitems] at hloop
    unfold createSale
    simp [hne, htl, hmem, hloop]

/-- Witness for C10: selling 8 units of product 1 from a load whose two
batches each have availability 5 (sum 10 ≥ 8) fails with the
insufficient-quantity `Validation` error. -/
theorem sale_single_batch_per_line_witness :
    (saleReq8.items = [] ++ ({ product_id := 1, quantity := 8, unit_price := none } :
        SaleLine) :: [] ∧
      findTruckLoad saleBaseState saleReq8.truck_load_id =
        some { id := 3, truck_id := 1, load_date := 7, status := "loaded" } ∧
      saleBaseState.shops.contains saleReq8.shop_id = true ∧
      findProduct saleBaseState 1 = some pMilk ∧
      findSaleBatch saleBaseState saleReq8.truck_load_id 1 8 = none ∧
      ((saleCandidates saleBaseState 3 1).map (fun p => saleAvail p.1)).sum = 10) ∧
    createSale saleBaseState saleReq8 =
      .error (.validation ("Insufficient quantity for product '" ++
        pMilk.name ++ "' in truck load. Need " ++ toString (8 : Int) ++
        ", but not enough available.")) :=
  ⟨⟨rfl, rfl, rfl, rfl, by decide, by decide⟩,
    sale_single_batch_per_line.2.2 saleBaseState saleReq8 []
      [] { product_id := 1, quantity := 8, unit_price := none }
      { id := 3, truck_id := 1, load_date := 7, status := "loaded" } pMilk
      rfl rfl rfl (by simp) (by decide) rfl (by decide) (by decide)⟩

end Dairyx
